import Mathlib

/-!
Verification of the dataswarm manager (src/dataswarm/src/manager/ds_manager.c)
against its natural-language specification.

The development is a shallow embedding: the C structures become Lean
structures, the hash tables and itables become association lists keyed by the
worker hash key (String) or the task id (Nat), and the stateful C functions
become pure functions from manager state to manager state.  Network sends are
recorded in an outbound message log; bytes discarded with link_soak are
recorded in a counter.  Machine integers are modelled as Nat/Int (timestamps
are microsecond counts as Nat); the C doubles that only ever hold multipliers
are modelled as Rat.

Code of the repository that is not under src/ (ds_task.c, ds_protocol.h,
list.c, category.c, ds_blocklist.c, ...) is modelled from the spec; each such
definition carries a doc comment starting with "Modelled from the spec:".
-/

set_option maxHeartbeats 1000000

namespace DS

/-- Task lifecycle states (spec 3; enumerated in ds_manager.c:3617 and 3653-3670). -/
inductive DsTaskState where
  | unknown
  | ready
  | running
  | waitingRetrieval
  | retrieved
  | done
  | canceled
deriving DecidableEq, Repr

/-- Task result codes (the full set appears in ds_result_str, ds_manager.c:3672-3718). -/
inductive DsResult where
  | success
  | inputMissing
  | outputMissing
  | stdoutMissing
  | signal
  | resourceExhaustion
  | taskTimeout
  | unknown
  | forsaken
  | maxRetries
  | taskMaxRunTime
  | diskAllocFull
  | rmonitorError
  | outputTransferError
deriving DecidableEq, Repr

/-- Message codes returned by the codec handlers (spec 4.1 return discipline). -/
inductive DsMsgCode where
  | processed
  | processedDisconnect
  | notProcessed
  | failure
deriving DecidableEq, Repr

/-- Result codes of manager-side operations (success / app failure / worker failure),
as classified by handle_failure (ds_manager.c:1254-1260). -/
inductive DsResultCode where
  | success
  | appFailure
  | workerFailure
deriving DecidableEq, Repr

/-- Worker connection types (spec 3: type in UNKNOWN, WORKER, STATUS). -/
inductive DsWorkerType where
  | unknown
  | worker
  | status
deriving DecidableEq, Repr

/-- Allocation labels of a task's resource request (spec 3: FIRST, MAX, ERROR). -/
inductive CategoryAllocation where
  | first
  | max
  | error
deriving DecidableEq, Repr

/-- Per-worker cache entry: size and transfer time of a cached file
(struct ds_remote_file_info, as used in handle_cache_update, ds_manager.c:323-328). -/
structure DsRemoteFileInfo where
  size : Int
  transfer_time : Int
deriving DecidableEq, Repr

/-- A task's input or output file (struct ds_file): content-addressed cache name,
remote name, and flag bits. -/
structure DsFile where
  cached_name : String
  remote_name : String
  flags : Nat
deriving DecidableEq, Repr

/-- Modelled from the spec: the DS_CACHE flag bit (ds_task.h is not under src/).
Spec 5: input files are deleted from the worker's cache on cancellation only when
DS_CACHE is not set on them.  The concrete bit value is immaterial to the claims. -/
def DS_CACHE : Nat := 1

/-- The cctools linked list together with its internal iteration cursor.
list.c is not under src/, but its cursor discipline is fixed by how every loop in
ds_manager.c uses it: list_first_item resets the cursor to the head,
list_next_item yields the element under the cursor and advances it, returning
null once the cursor has run off the end (and a fresh or fully-iterated list has
a null cursor, so a further list_next_item yields nothing).  `cursor = some i`
means the iterator points at element `i`; `none` is the null iterator. -/
structure CList (α : Type) where
  items : List α
  cursor : Option Nat
deriving DecidableEq, Repr

/-- list_first_item: reset the cursor to the head (null for an empty list). -/
def CList.firstItem {α : Type} (l : CList α) : CList α :=
  { l with cursor := if l.items.isEmpty then none else some 0 }

/-- list_next_item: yield the element under the cursor and advance, or null. -/
def CList.nextItem {α : Type} (l : CList α) : Option α × CList α :=
  match l.cursor with
  | none => (none, l)
  | some i =>
    match l.items.get? i with
    | none => (none, { l with cursor := none })
    | some x => (some x, { l with cursor := if i + 1 < l.items.length then some (i + 1) else none })

/-- The cursor state after a loop has iterated the list to its end. -/
def CList.exhaust {α : Type} (l : CList α) : CList α :=
  { l with cursor := none }

/-- One resource of a worker's resource vector (struct ds_resource):
total, smallest, largest as reported by the worker, inuse computed by the manager. -/
structure DsResource where
  total : Int
  smallest : Int
  largest : Int
  inuse : Int
deriving DecidableEq, Repr

/-- A worker's resource vector (struct ds_resources). -/
structure DsResources where
  tag : Int
  cores : DsResource
  memory : DsResource
  disk : DsResource
  gpus : DsResource
  workers : DsResource
deriving DecidableEq, Repr

/-- A per-task resource box (the slice of struct rmsummary that the manager's
inuse accounting reads: count_worker_resources, ds_manager.c:2585-2591). -/
structure RmSummary where
  cores : Int
  memory : Int
  disk : Int
  gpus : Int
deriving DecidableEq, Repr

/-- The per-category statistics read by abort_slow_workers (ds_manager.c:2841-2852)
and written by ds_accumulate_task (ds_manager.c:4712-4752), restricted to the
fields those two functions use. -/
structure DsStatsCat where
  tasks_done : Nat
  tasks_failed : Nat
  time_workers_execute_good : Nat
  time_send_good : Nat
  time_receive_good : Nat
deriving DecidableEq, Repr

/-- A task category (spec 3): fast-abort multiplier (0 = disabled, < 0 = use the
default category's, > 0 = value), the average task time recomputed by
abort_slow_workers, and the optional running stats. -/
structure Category where
  fast_abort : Rat
  average_task_time : Nat
  ds_stats : Option DsStatsCat
deriving DecidableEq, Repr

/-- The task record (struct ds_task), restricted to the fields the verified
functions read or write. -/
structure DsTask where
  taskid : Nat
  category : String
  priority : Int
  state : DsTaskState
  result : DsResult
  exit_code : Int
  try_count : Nat
  max_retries : Nat
  fast_abort_count : Nat
  exhausted_attempts : Nat
  resource_request : CategoryAllocation
  input_files : CList DsFile
  output_files : CList DsFile
  worker : Option String
  time_when_commit_start : Nat
  time_when_commit_end : Nat
  time_when_retrieval : Nat
  time_when_done : Nat
  time_workers_execute_last : Nat
  time_workers_execute_all : Nat
  time_workers_execute_failure : Nat
  output : Option (List Nat)
deriving DecidableEq, Repr

/-- The worker record (struct ds_worker_info), restricted to the fields the
verified functions read or write.  current_tasks holds task ids; the task
records themselves live in the manager's task table (the C current_tasks table
holds pointers into the same shared records). -/
structure DsWorkerInfo where
  hashkey : String
  hostname : String
  os : String
  arch : String
  version : String
  addrport : String
  wtype : DsWorkerType
  current_files : List (String × DsRemoteFileInfo)
  current_tasks : List Nat
  current_tasks_boxes : List (Nat × RmSummary)
  resources : DsResources
  fast_abort_alarm : Bool
  draining : Bool
  start_time : Nat
  last_msg_recv_time : Nat
  last_update_msg_time : Nat
  finished_tasks : Int
  total_tasks_complete : Nat
  total_task_time : Nat
deriving DecidableEq, Repr

/-- Manager-wide statistics (struct ds_stats), restricted to the counters the
verified functions touch. -/
structure DsStats where
  workers_joined : Nat
  workers_removed : Nat
  workers_lost : Nat
  workers_fast_aborted : Nat
  workers_released : Nat
  workers_idled_out : Nat
  tasks_dispatched : Nat
  tasks_done : Nat
  tasks_failed : Nat
  tasks_exhausted_attempts : Nat
  time_workers_execute : Nat
  time_workers_execute_good : Nat
  time_send_good : Nat
  time_receive_good : Nat
  time_workers_execute_exhaustion : Nat
deriving DecidableEq, Repr

/-- The manager state (struct ds_manager), restricted to the tables and knobs
the verified functions read or write.  `sent` is the log of outbound protocol
lines (worker key, line without the trailing newline); `soaked` counts the
payload bytes discarded with link_soak. -/
structure DsManager where
  worker_table : List DsWorkerInfo
  tasks : List (Nat × DsTask)
  ready_list : List Nat
  categories : List (String × Category)
  blocklist : List (String × Int)
  workers_with_available_results : List String
  stats : DsStats
  keepalive_interval : Int
  keepalive_timeout : Int
  link_poll_end : Nat
  current_max_worker : RmSummary
  monitor_mode : Bool
  sent : List (String × String)
  soaked : Nat
deriving DecidableEq, Repr

/-! ### Association-list helpers (hash_table / itable) -/

/-- hash_table_lookup / itable_lookup on an association list. -/
def assocLookup {κ β : Type} [DecidableEq κ] : List (κ × β) → κ → Option β
  | [], _ => none
  | (k', v) :: rest, k => if k' = k then some v else assocLookup rest k

/-- hash_table_insert / itable_insert: replace the value under an existing key,
or add the binding. -/
def assocInsert {κ β : Type} [DecidableEq κ] : List (κ × β) → κ → β → List (κ × β)
  | [], k, v => [(k, v)]
  | (k', v') :: rest, k, v => if k' = k then (k, v) :: rest else (k', v') :: assocInsert rest k v

/-- hash_table_remove / itable_remove: drop the binding of the key, if present. -/
def assocErase {κ β : Type} [DecidableEq κ] : List (κ × β) → κ → List (κ × β)
  | [], _ => []
  | (k', v') :: rest, k => if k' = k then rest else (k', v') :: assocErase rest k

/-- Find the worker record with the given hash key. -/
def findWorker : List DsWorkerInfo → String → Option DsWorkerInfo
  | [], _ => none
  | w :: ws, k => if w.hashkey = k then some w else findWorker ws k

/-- hash_table_lookup on the manager's worker table. -/
def lookupWorker (q : DsManager) (k : String) : Option DsWorkerInfo :=
  findWorker q.worker_table k

/-- Mutate the worker record with the given hash key in place. -/
def modifyWorker (q : DsManager) (k : String) (f : DsWorkerInfo → DsWorkerInfo) : DsManager :=
  { q with worker_table := q.worker_table.map (fun w => if w.hashkey = k then f w else w) }

/-- itable_lookup on the manager's task table. -/
def lookupTask (q : DsManager) (tid : Nat) : Option DsTask :=
  assocLookup q.tasks tid

/-- Mutate the task record with the given id in place. -/
def modifyTask (q : DsManager) (tid : Nat) (f : DsTask → DsTask) : DsManager :=
  { q with tasks := q.tasks.map (fun p => if p.1 = tid then (p.1, f p.2) else p) }

/-- ds_manager_send (ds_manager.c): transmit one protocol line to a worker.
The network write is abstracted: the line is appended to the outbound log and
the send is assumed to succeed. -/
def ds_manager_send (q : DsManager) (wkey : String) (msg : String) : DsManager :=
  { q with sent := q.sent ++ [(wkey, msg)] }

end DS

namespace DS

/-! ### Task-state machinery -/

/-- Modelled from the spec: ds_task_update_result lives in ds_task.c, which is
not under src/.  A definite result code overwrites the task's result.  Entering
READY the manager calls it with DS_RESULT_UNKNOWN (ds_manager.c:3634); per spec
4.2 entering READY "clears accumulated per-try result metadata and pushes to
the ready list ... A resubmission after RESOURCE_EXHAUSTION is pushed to the
head regardless of priority", so the clearing must not destroy the
RESOURCE_EXHAUSTION classification before the ready-list placement decision in
push_task_to_ready_list reads it: the update with DS_RESULT_UNKNOWN leaves the
result in place and the actual clearing is done by ds_task_clean at the end of
the push. -/
def ds_task_update_result (t : DsTask) (r : DsResult) : DsTask :=
  if r = DsResult.unknown then t else { t with result := r }

/-- Modelled from the spec: ds_task_clean lives in ds_task.c, which is not
under src/.  Per spec 4.2 it clears the accumulated per-try result metadata
(timing marks, captured output, per-try result); on a full clean it also resets
the cross-try counters.  The try count must survive a partial clean, or the
max_retries check on READY tasks (ds_manager.c:1200) could never fire. -/
def ds_task_clean (t : DsTask) (full : Bool) : DsTask :=
  let t := { t with
    time_when_commit_start := 0
    time_when_commit_end := 0
    time_when_retrieval := 0
    time_workers_execute_last := 0
    output := none
    result := DsResult.unknown }
  if full then
    { t with
      resource_request := CategoryAllocation.first
      try_count := 0
      exhausted_attempts := 0
      fast_abort_count := 0
      time_workers_execute_all := 0
      time_workers_execute_failure := 0 }
  else t

/-- The priority function handed to list_push_priority (ds_task_priority,
ds_manager.c:3576-3580), resolved through the manager's task table. -/
def priorityOf (q : DsManager) (tid : Nat) : Int :=
  match lookupTask q tid with
  | some t => t.priority
  | none => 0

/-- Modelled from the spec: list_push_priority lives in dttools list.c, which
is not under src/.  Per spec 4.2 the ready list is "ordered by priority
(descending)"; the new task is inserted before the first task of strictly
smaller priority, so equal priorities keep arrival order. -/
def list_push_priority (q : DsManager) (tid : Nat) : List Nat → List Nat
  | [] => [tid]
  | x :: xs =>
    if priorityOf q x < priorityOf q tid then tid :: x :: xs
    else x :: list_push_priority q tid xs

/-- push_task_to_ready_list (ds_manager.c:3584-3604): tasks requeued after
RESOURCE_EXHAUSTION go to the head of the ready list, everything else is
inserted by priority; accumulated per-try state is then cleared. -/
def push_task_to_ready_list (q : DsManager) (tid : Nat) : DsManager :=
  match lookupTask q tid with
  | none => q
  | some t =>
    let q :=
      if t.result = DsResult.resourceExhaustion then
        { q with ready_list := tid :: q.ready_list }
      else
        { q with ready_list := list_push_priority q tid q.ready_list }
    modifyTask q tid (fun t => ds_task_clean t false)

/-- change_task_state (ds_manager.c:3618-3651): record the new state, maintain
the ready list, and drop DONE/CANCELED tasks from the manager's task index. -/
def change_task_state (q : DsManager) (tid : Nat) (new_state : DsTaskState) : DsManager :=
  match lookupTask q tid with
  | none => q
  | some t =>
    let old_state := t.state
    let q := modifyTask q tid (fun t => { t with state := new_state })
    let q :=
      if old_state = DsTaskState.ready then { q with ready_list := q.ready_list.erase tid }
      else q
    match new_state with
    | DsTaskState.ready =>
      let q := modifyTask q tid (fun t => ds_task_update_result t DsResult.unknown)
      push_task_to_ready_list q tid
    | DsTaskState.done => { q with tasks := assocErase q.tasks tid }
    | DsTaskState.canceled => { q with tasks := assocErase q.tasks tid }
    | _ => q

/-! ### Worker resource accounting -/

/-- update_max_worker (ds_manager.c:2594-2617). -/
def update_max_worker (q : DsManager) (wkey : String) : DsManager :=
  match lookupWorker q wkey with
  | none => q
  | some w =>
    if w.resources.workers.total < 1 then q
    else
      let m := q.current_max_worker
      let m := if m.cores < w.resources.cores.largest then { m with cores := w.resources.cores.largest } else m
      let m := if m.memory < w.resources.memory.largest then { m with memory := w.resources.memory.largest } else m
      let m := if m.disk < w.resources.disk.largest then { m with disk := w.resources.disk.largest } else m
      let m := if m.gpus < w.resources.gpus.largest then { m with gpus := w.resources.gpus.largest } else m
      { q with current_max_worker := m }

/-- Sum one resource over a worker's per-task boxes. -/
def boxesSum (boxes : List (Nat × RmSummary)) (proj : RmSummary → Int) : Int :=
  boxes.foldl (fun acc p => acc + proj p.2) 0

/-- The counter reset at the top of count_worker_resources
(ds_manager.c:2573-2576). -/
def worker_zero_inuse (w : DsWorkerInfo) : DsWorkerInfo :=
  { w with resources := { w.resources with
      cores := { w.resources.cores with inuse := 0 }
      memory := { w.resources.memory with inuse := 0 }
      disk := { w.resources.disk with inuse := 0 }
      gpus := { w.resources.gpus with inuse := 0 } } }

/-- The recount loop of count_worker_resources (ds_manager.c:2580-2591),
including the early return when the worker has not declared a worker slot. -/
def worker_recount_inuse (w : DsWorkerInfo) : DsWorkerInfo :=
  if w.resources.workers.total < 1 then w
  else
    { w with resources := { w.resources with
        cores := { w.resources.cores with inuse := boxesSum w.current_tasks_boxes (fun b => b.cores) }
        memory := { w.resources.memory with inuse := boxesSum w.current_tasks_boxes (fun b => b.memory) }
        disk := { w.resources.disk with inuse := boxesSum w.current_tasks_boxes (fun b => b.disk) }
        gpus := { w.resources.gpus with inuse := boxesSum w.current_tasks_boxes (fun b => b.gpus) } } }

/-- count_worker_resources (ds_manager.c:2568-2592): zero the inuse counters,
refresh the largest-worker summary, and, when the worker has declared at least
one worker slot, recount inuse from the per-task resource boxes.  When
workers.total < 1 the function returns early and the counters stay zero. -/
def count_worker_resources (q : DsManager) (wkey : String) : DsManager :=
  let q := modifyWorker q wkey worker_zero_inuse
  let q := update_max_worker q wkey
  modifyWorker q wkey worker_recount_inuse

/-- reap_task_from_worker (ds_manager.c:2677-2700): drop the task's box and
table entry from the worker, clear the task's worker back-reference, change the
task state, and recount the worker's resources.  When the task's back-reference
names a different worker the source only logs a warning and continues (the
comment there flags this as a likely bug); the execution-time credit is applied
only in the matching case. -/
def reap_task_from_worker (q : DsManager) (wkey : String) (tid : Nat) (new_state : DsTaskState) : DsManager :=
  match lookupTask q tid with
  | none => q
  | some t =>
    let q :=
      if t.worker = some wkey then
        modifyWorker q wkey (fun w =>
          { w with total_task_time := w.total_task_time + t.time_workers_execute_last })
      else q
    let q := modifyWorker q wkey (fun w =>
      { w with
        current_tasks_boxes := assocErase w.current_tasks_boxes tid
        current_tasks := w.current_tasks.erase tid })
    let q := modifyTask q tid (fun t => { t with worker := none })
    let q := change_task_state q tid new_state
    count_worker_resources q wkey

/-! ### Remote file deletion and task cancellation -/

/-- delete_worker_file (ds_manager.c:886-891): unless one of the file's flags
is excepted, send `unlink` and drop the file from the worker's cache index. -/
def delete_worker_file (q : DsManager) (wkey : String) (filename : String)
    (flags except_flags : Nat) : DsManager :=
  if flags &&& except_flags = 0 then
    let q := ds_manager_send q wkey ("unlink " ++ filename)
    modifyWorker q wkey (fun w => { w with current_files := assocErase w.current_files filename })
  else q

/-- delete_worker_files (ds_manager.c:895-904): list_first_item then a full
list_next_item sweep, deleting each file that is not excepted.  The full sweep
is a fold over the items (the body never touches this list), and it leaves the
list's cursor exhausted.  Returns the updated manager and the list with its
final cursor. -/
def delete_worker_files (q : DsManager) (wkey : String) (files : CList DsFile)
    (except_flags : Nat) : DsManager × CList DsFile :=
  let q := files.items.foldl
    (fun q tf => delete_worker_file q wkey tf.cached_name tf.flags except_flags) q
  (q, files.exhaust)

/-- delete_task_output_files (ds_manager.c:908-911). -/
def delete_task_output_files (q : DsManager) (wkey : String) (tid : Nat) : DsManager :=
  match lookupTask q tid with
  | none => q
  | some t =>
    let (q, fs) := delete_worker_files q wkey t.output_files 0
    modifyTask q tid (fun t => { t with output_files := fs })

/-- delete_uncacheable_files (ds_manager.c:915-919). -/
def delete_uncacheable_files (q : DsManager) (wkey : String) (tid : Nat) : DsManager :=
  match lookupTask q tid with
  | none => q
  | some t =>
    let (q, ins) := delete_worker_files q wkey t.input_files DS_CACHE
    let q := modifyTask q tid (fun t => { t with input_files := ins })
    match lookupTask q tid with
    | none => q
    | some t =>
      let (q, outs) := delete_worker_files q wkey t.output_files DS_CACHE
      modifyTask q tid (fun t => { t with output_files := outs })

/-- cancel_task_on_worker (ds_manager.c:2979-3001): if the task has a worker,
send `kill`, delete its non-cached inputs and all outputs from the worker, and
reap it into the new state; otherwise just change the state.  Returns whether a
worker-side cancellation took place. -/
def cancel_task_on_worker (q : DsManager) (tid : Nat) (new_state : DsTaskState) : DsManager × Bool :=
  match lookupTask q tid with
  | none => (q, false)
  | some t =>
    match t.worker with
    | some wkey =>
      let q := ds_manager_send q wkey ("kill " ++ toString tid)
      let (q, ins) := delete_worker_files q wkey t.input_files DS_CACHE
      let q := modifyTask q tid (fun t => { t with input_files := ins })
      let (q, outs) := delete_worker_files q wkey t.output_files 0
      let q := modifyTask q tid (fun t => { t with output_files := outs })
      let q := reap_task_from_worker q wkey tid new_state
      (q, true)
    | none => (change_task_state q tid new_state, false)

end DS

namespace DS

/-! ### Worker removal -/

/-- The per-task body of the cleanup loop in cleanup_worker
(ds_manager.c:728-740): charge the time since the commit to the failure
counters when the commit had completed, clear the per-try state, and reap the
task back to READY. -/
def cleanup_reap_one (wkey : String) (now : Nat) (q : DsManager) (tid : Nat) : DsManager :=
  match lookupTask q tid with
  | none => q
  | some t =>
    let q :=
      if t.time_when_commit_start ≤ t.time_when_commit_end then
        modifyTask q tid (fun t =>
          { t with
            time_workers_execute_failure :=
              t.time_workers_execute_failure + (now - t.time_when_commit_end)
            time_workers_execute_all :=
              t.time_workers_execute_all + (now - t.time_when_commit_end) })
      else q
    let q := modifyTask q tid (fun t => ds_task_clean t false)
    reap_task_from_worker q wkey tid DsTaskState.ready

/-- cleanup_worker (ds_manager.c:712-750): drop the worker's cache index, reap
every assigned task back to READY, and clear the task and box tables.  `now` is
the timestamp_get() sample taken inside the loop. -/
def cleanup_worker (q : DsManager) (wkey : String) (now : Nat) : DsManager :=
  match lookupWorker q wkey with
  | none => q
  | some w0 =>
    let q := modifyWorker q wkey (fun w => { w with current_files := [] })
    let q := w0.current_tasks.foldl (cleanup_reap_one wkey now) q
    modifyWorker q wkey (fun w =>
      { w with current_tasks := [], current_tasks_boxes := [], finished_tasks := 0 })

/-- find_max_worker (ds_manager.c:2621-2636): recompute the largest-worker
summary from scratch over all connected workers. -/
def find_max_worker (q : DsManager) : DsManager :=
  let q := { q with current_max_worker := { cores := 0, memory := 0, disk := 0, gpus := 0 } }
  (q.worker_table.map (fun w => w.hashkey)).foldl (fun q k =>
    match lookupWorker q k with
    | some w => if w.resources.workers.total > 0 then update_max_worker q k else q
    | none => q) q

/-- remove_worker (ds_manager.c:780-810): count the removal for known workers,
clean up all state attached to the worker, drop the record from the tables, and
recompute the largest-worker summary.  (The txn-log write and the
disconnected-worker stat accumulation touch no modelled state.) -/
def remove_worker (q : DsManager) (wkey : String) (now : Nat) : DsManager :=
  match lookupWorker q wkey with
  | none => q
  | some w =>
    let q :=
      if w.wtype = DsWorkerType.worker then
        { q with stats := { q.stats with workers_removed := q.stats.workers_removed + 1 } }
      else q
    let q := cleanup_worker q wkey now
    let q := { q with worker_table := q.worker_table.filter (fun w2 => !(w2.hashkey == wkey)) }
    let q := { q with workers_with_available_results :=
                 q.workers_with_available_results.filter (fun k => !(k == wkey)) }
    find_max_worker q

/-- handle_worker_failure (ds_manager.c:1242-1246). -/
def handle_worker_failure (q : DsManager) (wkey : String) (now : Nat) : DsManager :=
  remove_worker q wkey now

/-- handle_app_failure (ds_manager.c:1218-1235): reap the task into RETRIEVED
and, if the failure happened after the commit finished, delete its output files
from the worker's cache. -/
def handle_app_failure (q : DsManager) (wkey : String) (tid : Nat) : DsManager :=
  let q := reap_task_from_worker q wkey tid DsTaskState.retrieved
  match lookupTask q tid with
  | none => q
  | some t =>
    if t.time_when_commit_end > 0 then delete_task_output_files q wkey tid else q

/-- handle_failure (ds_manager.c:1254-1260). -/
def handle_failure (q : DsManager) (wkey : String) (tid : Nat) (fail_type : DsResultCode)
    (now : Nat) : DsManager :=
  if fail_type = DsResultCode.appFailure then handle_app_failure q wkey tid
  else handle_worker_failure q wkey now

/-- shut_down_worker (ds_manager.c:2928-2937). -/
def shut_down_worker (q : DsManager) (wkey : String) (now : Nat) : DsManager :=
  match lookupWorker q wkey with
  | none => q
  | some _ =>
    let q := ds_manager_send q wkey "exit"
    let q := remove_worker q wkey now
    { q with stats := { q.stats with workers_released := q.stats.workers_released + 1 } }

/-! ### Task dispatch (commit) -/

/-- The environment of one commit attempt: the resource box chosen by
ds_manager_choose_resources_for_task, the two timestamp samples, and the
outcomes of the two network operations that can fail (the input-file push
performed by the external transfer engine, and the final header send). -/
structure CommitEnv where
  limits : RmSummary
  commit_start : Nat
  commit_end : Nat
  input_result : DsResultCode
  send_ok : Bool
deriving DecidableEq, Repr

/-- start_one_task (ds_manager.c:2449-2551): push the input files (external
transfer engine, abstracted by `env.input_result`), then stream the task header
block.  On success the per-task resource box is recorded in the worker's box
table (ds_manager.c:2501) and the header loops leave the input- and
output-file list cursors exhausted (ds_manager.c:2513-2535).  Only the final
`end` send is checked (`env.send_ok`). -/
def start_one_task (q : DsManager) (wkey : String) (tid : Nat) (env : CommitEnv) :
    DsManager × DsResultCode :=
  match lookupTask q tid with
  | none => (q, DsResultCode.workerFailure)
  | some t =>
    if env.input_result ≠ DsResultCode.success then (q, env.input_result)
    else
      let q := ds_manager_send q wkey ("task " ++ toString tid)
      let q := modifyWorker q wkey (fun w =>
        { w with current_tasks_boxes := assocInsert w.current_tasks_boxes tid env.limits })
      let q := t.input_files.items.foldl (fun q tf =>
        ds_manager_send q wkey ("infile " ++ tf.cached_name ++ " " ++ tf.remote_name)) q
      let q := t.output_files.items.foldl (fun q tf =>
        ds_manager_send q wkey ("outfile " ++ tf.cached_name ++ " " ++ tf.remote_name)) q
      let q := modifyTask q tid (fun t =>
        { t with
          input_files := t.input_files.exhaust
          output_files := t.output_files.exhaust })
      let q := ds_manager_send q wkey "end"
      if env.send_ok then (q, DsResultCode.success) else (q, DsResultCode.workerFailure)

/-- commit_task_to_worker (ds_manager.c:2645-2669): send the task, record the
assignment in the worker's task table and the task's back-reference, move the
task to RUNNING, charge the try and the dispatch stat, recount the worker's
resources, and finally route any send failure through the failure handler. -/
def commit_task_to_worker (q : DsManager) (wkey : String) (tid : Nat) (env : CommitEnv) :
    DsManager :=
  let q := modifyTask q tid (fun t => { t with time_when_commit_start := env.commit_start })
  let (q, result) := start_one_task q wkey tid env
  let q := modifyTask q tid (fun t => { t with time_when_commit_end := env.commit_end })
  let q := modifyWorker q wkey (fun w => { w with current_tasks := tid :: w.current_tasks })
  let q := modifyTask q tid (fun t => { t with worker := some wkey })
  let q := change_task_state q tid DsTaskState.running
  let q := modifyTask q tid (fun t => { t with try_count := t.try_count + 1 })
  let q := { q with stats := { q.stats with tasks_dispatched := q.stats.tasks_dispatched + 1 } }
  let q := count_worker_resources q wkey
  if result ≠ DsResultCode.success then handle_failure q wkey tid result env.commit_end else q

end DS

namespace DS

/-! ### Result retrieval (the `result` message) -/

/-- MAX_TASK_STDOUT_STORAGE = 1*GIGABYTE (ds_manager.c:84); GIGABYTE is
1024*1024*1024 in dttools macros.h. -/
def MAX_TASK_STDOUT_STORAGE : Nat := 1073741824

/-- The truncation marker written over the tail of an over-long stdout
(ds_manager.c:1478), with the %d argument MAX_TASK_STDOUT_STORAGE and the
excess byte count spliced in. -/
def truncation_message (excess : Nat) : String :=
  "\n>>>>>> STDOUT TRUNCATED AFTER THIS POINT.\n>>>>>> MAXIMUM OF 1073741824 BYTES REACHED, "
    ++ toString excess ++ " BYTES TRUNCATED."

/-- The marker as a byte list (the marker is pure ASCII). -/
def truncation_message_bytes (excess : Nat) : List Nat :=
  (truncation_message excess).data.map Char.toNat

/-- memcpy of `src` into `buf` starting at `idx`. -/
def writeAt (buf : List Nat) (idx : Nat) (src : List Nat) : List Nat :=
  buf.take idx ++ src ++ buf.drop (idx + src.length)

/-- The stdout buffer t->output as get_result leaves it on the successful read
path (ds_manager.c:1440-1493): min(OUTLEN, 1 GiB) bytes are read into a buffer
of that size plus one; if OUTLEN exceeds the cap, the truncation marker is
copied over the last strlen(marker)+1 kept bytes (the memcpy at 1479 and the
NUL store at 1480); the final cell holds the terminating NUL written by
`t->output[actual] = 0` (ds_manager.c:1493 - written last in C, but it is
outside the marker region, so the order is immaterial). -/
def get_result_stdout (payload : List Nat) (output_length : Nat) : List Nat :=
  let retrieved := min output_length MAX_TASK_STDOUT_STORAGE
  let buf := payload.take retrieved ++ [0]
  if output_length > retrieved then
    let msg := truncation_message_bytes (output_length - retrieved)
    let buf := writeAt buf (MAX_TASK_STDOUT_STORAGE - msg.length - 1) msg
    buf.set (MAX_TASK_STDOUT_STORAGE - 1) 0
  else buf

/-- The parsed fields of a `result STATUS EXIT OUTLEN EXEC_USEC TASKID` line
(ds_manager.c:1405). -/
structure ResultMsg where
  task_status : DsResult
  exit_status : Int
  output_length : Nat
  execution_time : Nat
  taskid : Nat
deriving DecidableEq, Repr

/-- Modelled from the spec: the exit codes RM_OVERFLOW and RM_TIME_EXPIRE of
the resource monitor (rmonitor_types.h is not under src/); get_result
reclassifies them as RESOURCE_EXHAUSTION and TASK_TIMEOUT (spec 4.7).  The
concrete values are immaterial; they only need to be distinct. -/
def RM_OVERFLOW : Int := 512

/-- Modelled from the spec: see RM_OVERFLOW. -/
def RM_TIME_EXPIRE : Int := 513

/-- get_result (ds_manager.c:1385-1514): handle one `result` line from a
worker.  `payload` is the stdout byte stream following the header; `now` is the
timestamp_get() sample used for the observed execution time.  An unknown task
id drains the declared payload.  A FORSAKEN status deletes non-cached inputs
and requeues the task READY without touching the execution statistics.
Otherwise the stdout is stored (capped at MAX_TASK_STDOUT_STORAGE with the
excess drained and the truncation marker written), the result and exit code are
recorded, and the task moves to WAITING_RETRIEVAL.  (The malloc-failure branch
at 1449-1456 is not modelled: allocation is assumed to succeed.) -/
def get_result (q : DsManager) (wkey : String) (m : ResultMsg) (payload : List Nat)
    (now : Nat) : DsManager × DsResultCode :=
  match lookupWorker q wkey with
  | none => (q, DsResultCode.workerFailure)
  | some w =>
    if ¬ (m.taskid ∈ w.current_tasks) then
      ({ q with soaked := q.soaked + m.output_length }, DsResultCode.success)
    else
      match lookupTask q m.taskid with
      | none => ({ q with soaked := q.soaked + m.output_length }, DsResultCode.success)
      | some t =>
        if m.task_status = DsResult.forsaken then
          let (q, ins) := delete_worker_files q wkey t.input_files DS_CACHE
          let q := modifyTask q m.taskid (fun t => { t with input_files := ins })
          let q := reap_task_from_worker q wkey m.taskid DsTaskState.ready
          (q, DsResultCode.success)
        else
          let observed := now - t.time_when_commit_end
          let execLast := min observed m.execution_time
          let q := modifyTask q m.taskid (fun t =>
            { t with
              time_workers_execute_last := execLast
              time_workers_execute_all := t.time_workers_execute_all + execLast })
          let q :=
            if m.output_length > MAX_TASK_STDOUT_STORAGE then
              modifyTask q m.taskid (fun t => ds_task_update_result t DsResult.stdoutMissing)
            else q
          let retrieved := min m.output_length MAX_TASK_STDOUT_STORAGE
          let actual := min payload.length retrieved
          if actual ≠ retrieved then
            -- short read: store what arrived and report a worker failure
            let q := modifyTask q m.taskid (fun t =>
              { t with output := some (payload.take actual ++ [0]) })
            (q, DsResultCode.workerFailure)
          else
            let q := modifyTask q m.taskid (fun t =>
              { t with output := some (get_result_stdout payload m.output_length) })
            let q := { q with soaked := q.soaked + (m.output_length - retrieved) }
            let q := modifyTask q m.taskid (fun t =>
              { t with result := m.task_status, exit_code := m.exit_status })
            let q := { q with stats := { q.stats with
              time_workers_execute := q.stats.time_workers_execute + execLast } }
            let q := modifyWorker q wkey (fun w =>
              { w with finished_tasks := w.finished_tasks + 1 })
            let q :=
              if q.monitor_mode then
                if m.exit_status = RM_OVERFLOW then
                  modifyTask q m.taskid (fun t =>
                    ds_task_update_result t DsResult.resourceExhaustion)
                else if m.exit_status = RM_TIME_EXPIRE then
                  modifyTask q m.taskid (fun t => ds_task_update_result t DsResult.taskTimeout)
                else q
              else q
            let q := change_task_state q m.taskid DsTaskState.waitingRetrieval
            (q, DsResultCode.success)

/-! ### Cache-update message -/

/-- handle_cache_update (ds_manager.c:317-332): a well-formed
`cache-update NAME SIZE TIME` line updates the size and transfer time of the
named entry in the sending worker's cache index, if the entry exists; the line
is always reported processed. -/
def handle_cache_update (q : DsManager) (wkey : String) (cachename : String)
    (size transfer_time : Int) : DsManager × DsMsgCode :=
  let remote_info : DsRemoteFileInfo := { size := size, transfer_time := transfer_time }
  let q := modifyWorker q wkey (fun w =>
    match assocLookup w.current_files cachename with
    | some _ =>
      { w with current_files := assocInsert w.current_files cachename remote_info }
    | none => w)
  (q, DsMsgCode.processed)

/-! ### Blocklist and the initial greeting -/

/-- Modelled from the spec: ds_blocklist_block lives in ds_blocklist.c, which
is not under src/.  Spec C11: "time-bounded host blocks" - the host is recorded
with its block timeout (-1 meaning indefinite, as passed by ds_block_host). -/
def ds_blocklist_block (q : DsManager) (host : String) (timeout : Int) : DsManager :=
  { q with blocklist := assocInsert q.blocklist host timeout }

/-- ds_block_host (ds_manager.c:3830-3833). -/
def ds_block_host (q : DsManager) (host : String) : DsManager :=
  ds_blocklist_block q host (-1)

/-- ds_block_host_with_timeout (ds_manager.c:3825-3828). -/
def ds_block_host_with_timeout (q : DsManager) (host : String) (timeout : Int) : DsManager :=
  ds_blocklist_block q host timeout

/-- DS_PROTOCOL_VERSION (ds_protocol.h, not under src/).  Modelled from the
spec: "an integer constant; mismatch means reject and block" (spec 6); the
concrete value is immaterial to the claims. -/
def DS_PROTOCOL_VERSION : Int := 4

/-- The parsed fields of a `dataswarm V HOST OS ARCH VER` greeting
(ds_manager.c:1276). -/
structure DataswarmMsg where
  worker_protocol : Int
  hostname : String
  os : String
  arch : String
  version : String
deriving DecidableEq, Repr

/-- handle_dataswarm (ds_manager.c:1271-1310): on a protocol mismatch, block
the host recorded for the worker (still the placeholder, since no identity has
been stored yet) and report failure; on a match, record the identity, promote
the worker to type WORKER, and count the join. -/
def handle_dataswarm (q : DsManager) (wkey : String) (m : DataswarmMsg) :
    DsManager × DsMsgCode :=
  match lookupWorker q wkey with
  | none => (q, DsMsgCode.failure)
  | some w =>
    if m.worker_protocol ≠ DS_PROTOCOL_VERSION then
      (ds_block_host q w.hostname, DsMsgCode.failure)
    else
      let q := modifyWorker q wkey (fun w =>
        { w with
          hostname := m.hostname
          os := m.os
          arch := m.arch
          version := m.version
          wtype := DsWorkerType.worker })
      let q := { q with stats := { q.stats with workers_joined := q.stats.workers_joined + 1 } }
      (q, DsMsgCode.processed)

/-- The dispatch of a received greeting line: ds_manager_recv stamps the
receive time and routes the line to handle_dataswarm (ds_manager.c:409-410);
handle_worker removes the worker when the handler reports failure
(ds_manager.c:2265-2269). -/
def handle_worker_dataswarm (q : DsManager) (wkey : String) (m : DataswarmMsg) (now : Nat) :
    DsManager :=
  let q := modifyWorker q wkey (fun w => { w with last_msg_recv_time := now })
  let (q, code) := handle_dataswarm q wkey m
  match code with
  | DsMsgCode.failure =>
    let q := { q with stats := { q.stats with workers_lost := q.stats.workers_lost + 1 } }
    remove_worker q wkey now
  | DsMsgCode.notProcessed =>
    let q := { q with stats := { q.stats with workers_lost := q.stats.workers_lost + 1 } }
    remove_worker q wkey now
  | _ => q

/-! ### Keepalives (health monitor) -/

/-- The per-worker body of ask_for_workers_updates (ds_manager.c:2772-2817).
Everything is guarded by keepalive_interval > 0.  A worker that never sent its
greeting (hostname still "unknown") is removed once
(current_time - start_time)/1000000 reaches keepalive_timeout.  A known worker
that has answered since the last check is sent a fresh `check` once the
keepalive interval has elapsed; one that has not answered is removed once the
time from its last check to the end of the last poll reaches
keepalive_timeout. -/
def ask_update_one (q : DsManager) (current_time : Nat) (wkey : String) : DsManager :=
  match lookupWorker q wkey with
  | none => q
  | some w =>
    if q.keepalive_interval > 0 then
      if w.hostname = "unknown" then
        if (((current_time - w.start_time) / 1000000 : Nat) : Int) ≥ q.keepalive_timeout then
          handle_worker_failure q wkey current_time
        else q
      else
        if w.last_msg_recv_time > w.last_update_msg_time then
          if (((current_time - w.last_update_msg_time) / 1000000 : Nat) : Int)
              ≥ q.keepalive_interval then
            let q := ds_manager_send q wkey "check"
            modifyWorker q wkey (fun w => { w with last_update_msg_time := current_time })
          else q
        else
          if q.link_poll_end > w.last_update_msg_time then
            if (((q.link_poll_end - w.last_update_msg_time) / 1000000 : Nat) : Int)
                ≥ q.keepalive_timeout then
              handle_worker_failure q wkey current_time
            else q
          else q
    else q

/-- ask_for_workers_updates (ds_manager.c:2772-2817): the body above, applied
to every connected worker. -/
def ask_for_workers_updates (q : DsManager) (current_time : Nat) : DsManager :=
  (q.worker_table.map (fun w => w.hashkey)).foldl
    (fun q k => ask_update_one q current_time k) q

/-- The end_of_resource_update branch of handle_info (ds_manager.c:288-290):
recount the worker's resources from its boxes.  (The txn-log write touches no
modelled state.) -/
def handle_info_end_of_resource_update (q : DsManager) (wkey : String) : DsManager :=
  count_worker_resources q wkey

end DS

namespace DS

/-! ### Categories, accumulation, and fast abort -/

/-- Modelled from the spec: category_lookup_or_create lives in dttools
category.c, which is not under src/.  It returns the named category from the
manager's category table, creating it when absent; a freshly created category
carries no dataswarm statistics block yet and uses the default fast-abort
multiplier (spec 3: "fast-abort multiplier (0=disabled, <0=use default,
>0=value)"). -/
def category_lookup_or_create (q : DsManager) (name : String) : DsManager × Category :=
  match assocLookup q.categories name with
  | some c => (q, c)
  | none =>
    let c : Category := { fast_abort := -1, average_task_time := 0, ds_stats := none }
    ({ q with categories := assocInsert q.categories name c }, c)

/-- The zeroed per-category dataswarm statistics block, as the calloc at
ds_manager.c:4877 leaves it. -/
def zeroStatsCat : DsStatsCat :=
  { tasks_done := 0, tasks_failed := 0, time_workers_execute_good := 0,
    time_send_good := 0, time_receive_good := 0 }

/-- ds_category_lookup_or_create (ds_manager.c:4873-4882): fetch or create the
category through the dttools table, and when its dataswarm statistics block is
still missing allocate it zeroed (the category_specify_allocation_mode call on
that path touches only category fields outside the modelled state). -/
def ds_category_lookup_or_create (q : DsManager) (name : String) : DsManager × Category :=
  let (q, c) := category_lookup_or_create q name
  if c.ds_stats = none then
    let c := { c with ds_stats := some zeroStatsCat }
    ({ q with categories := assocInsert q.categories name c }, c)
  else (q, c)

/-- ds_accumulate_task (ds_manager.c:4712-4775), restricted to the modelled
fields: per-category completion counters and the good-time sums read back by
abort_slow_workers, plus the manager-wide counters.  The self-subtraction
`t->time_when_commit_end - t->time_when_commit_end` feeding time_send_good
(ds_manager.c:4733 and 4738) is reproduced as written: it adds zero. -/
def ds_accumulate_task (q : DsManager) (tid : Nat) : DsManager :=
  match lookupTask q tid with
  | none => q
  | some t =>
    let (q, c) := ds_category_lookup_or_create q t.category
    let s := c.ds_stats.getD
      { tasks_done := 0, tasks_failed := 0, time_workers_execute_good := 0,
        time_send_good := 0, time_receive_good := 0 }
    let q := { q with stats := { q.stats with tasks_done := q.stats.tasks_done + 1 } }
    if t.result = DsResult.success then
      let q := { q with stats := { q.stats with
        time_workers_execute_good :=
          q.stats.time_workers_execute_good + t.time_workers_execute_last
        time_send_good :=
          q.stats.time_send_good + (t.time_when_commit_end - t.time_when_commit_end)
        time_receive_good :=
          q.stats.time_receive_good + (t.time_when_done - t.time_when_retrieval) } }
      let s := { s with
        tasks_done := s.tasks_done + 1
        time_workers_execute_good := s.time_workers_execute_good + t.time_workers_execute_last
        time_send_good := s.time_send_good + (t.time_when_commit_end - t.time_when_commit_end)
        time_receive_good := s.time_receive_good + (t.time_when_done - t.time_when_retrieval) }
      { q with categories := assocInsert q.categories t.category { c with ds_stats := some s } }
    else
      let s := { s with tasks_failed := s.tasks_failed + 1 }
      let q :=
        { q with categories := assocInsert q.categories t.category { c with ds_stats := some s } }
      if t.result = DsResult.resourceExhaustion then
        let q := { q with stats := { q.stats with
          time_workers_execute_exhaustion :=
            q.stats.time_workers_execute_exhaustion + t.time_workers_execute_last
          tasks_exhausted_attempts := q.stats.tasks_exhausted_attempts + 1 } }
        modifyTask q tid (fun t =>
          { t with exhausted_attempts := t.exhausted_attempts + 1 })
      else q

/-- The default timeout for blocking slow workers
(ds_option_blocklist_slow_workers_timeout, ds_manager.c:96). -/
def blocklist_slow_workers_timeout : Int := 900

/-- The first pass of abort_slow_workers (ds_manager.c:2839-2856): recompute
each category's average task time (zero when fewer than 10 completions) and
note whether any category with enough completions has a positive fast-abort
multiplier. -/
def abort_recompute_averages (q : DsManager) : DsManager × Bool :=
  (q.categories.map (fun p => p.1)).foldl
    (fun (acc : DsManager × Bool) name =>
      let (q, flag) := acc
      match assocLookup q.categories name with
      | none => (q, flag)
      | some c =>
        match c.ds_stats with
        | none => (q, flag)
        | some s =>
          if s.tasks_done < 10 then
            ({ q with categories :=
                 assocInsert q.categories name { c with average_task_time := 0 } }, flag)
          else
            let avg := (s.time_workers_execute_good + s.time_send_good + s.time_receive_good)
                         / s.tasks_done
            (({ q with categories :=
                  assocInsert q.categories name { c with average_task_time := avg } }),
             flag || decide (c.fast_abort > 0)))
    (q, false)

/-- The fast-abort check run on one task and its (already fetched) category:
the tail of the per-task loop body of abort_slow_workers
(ds_manager.c:2869-2921).  `c_def_fast_abort` is the default category's
multiplier.  A task whose runtime
since commit reaches average * (multiplier + strikes) is cancelled and requeued
READY, and its strike count is incremented.  A task that already had a strike
cannot mark a second worker as suspect (ds_manager.c:2900-2903) and changes
nothing else.  Otherwise, a worker whose fast-abort alarm was already set is
blocked and removed; in all non-skipped cases the worker's alarm is set (for a
removed worker the store hits the freed record and has no observable effect on
the manager state). -/
def abort_slow_check (q : DsManager) (current : Nat) (c_def_fast_abort : Rat) (tid : Nat)
    (t : DsTask) (c : Category) : DsManager :=
  if c.fast_abort = 0 then q
    else
      let runtime := current - t.time_when_commit_start
      let average_task_time := c.average_task_time
      if average_task_time < 1 then q
      else
        let multiplier? : Option Rat :=
          if c.fast_abort > 0 then some c.fast_abort
          else if c_def_fast_abort > 0 then some c_def_fast_abort
          else none
        match multiplier? with
        | none => q
        | some multiplier =>
          if (runtime : Rat) ≥ (average_task_time : Rat) * (multiplier + (t.fast_abort_count : Rat)) then
            match t.worker with
            | none => q
            | some wkey =>
              match lookupWorker q wkey with
              | none => q
              | some w =>
                if w.wtype = DsWorkerType.worker then
                  let (q, _) := cancel_task_on_worker q tid DsTaskState.ready
                  let q := modifyTask q tid (fun t =>
                    { t with fast_abort_count := t.fast_abort_count + 1 })
                  if t.fast_abort_count + 1 > 1 then q
                  else
                    let q :=
                      if w.fast_abort_alarm then
                        let q := ds_block_host_with_timeout q w.hostname
                                   blocklist_slow_workers_timeout
                        let q := remove_worker q wkey current
                        { q with stats := { q.stats with
                            workers_fast_aborted := q.stats.workers_fast_aborted + 1 } }
                      else q
                    modifyWorker q wkey (fun w => { w with fast_abort_alarm := true })
                else q
          else q

/-- The per-task loop body of abort_slow_workers (ds_manager.c:2866-2868):
resolve the task and its category (through ds_category_lookup_or_create) and
run the fast-abort check on them. -/
def abort_slow_body (q : DsManager) (current : Nat) (c_def_fast_abort : Rat) (tid : Nat) :
    DsManager :=
  match lookupTask q tid with
  | none => q
  | some t =>
    let (q, c) := ds_category_lookup_or_create q t.category
    abort_slow_check q current c_def_fast_abort tid t c

/-- abort_slow_workers (ds_manager.c:2825-2924): recompute the averages, and if
any category enables fast abort, apply the per-task body to every task in the
manager's table. -/
def abort_slow_workers (q : DsManager) (current : Nat) : DsManager :=
  let (q, fast_abort_flag) := abort_recompute_averages q
  if ¬ fast_abort_flag then q
  else
    let (q, c_def) := ds_category_lookup_or_create q "default"
    (q.tasks.map (fun p => p.1)).foldl
      (fun q tid => abort_slow_body q current c_def.fast_abort tid) q

end DS

namespace DS

/-! ### Cache invalidation -/

/-- The input-file scan of ds_invalidate_cached_file_internal
(ds_manager.c:3039-3046): `while((tf = list_next_item(t->input_files)))`,
cancelling the task on a cached-name match and continuing.  The loop advances
the task's own list cursor; a cancellation runs delete_worker_files over the
same list, leaving that cursor exhausted, so the scan then stops.  The fuel is
an upper bound on the number of cursor advances (instantiated with the list
length plus two, which the caller supplies). -/
def scan_cancel_inputs (filename : String) (tid : Nat) : Nat → DsManager → DsManager
  | 0, q => q
  | fuel + 1, q =>
    match lookupTask q tid with
    | none => q
    | some t =>
      let (item, files) := t.input_files.nextItem
      let q := modifyTask q tid (fun t => { t with input_files := files })
      match item with
      | none => q
      | some tf =>
        if tf.cached_name = filename then
          let (q, _) := cancel_task_on_worker q tid DsTaskState.ready
          scan_cancel_inputs filename tid fuel q
        else
          scan_cancel_inputs filename tid fuel q

/-- The output-file scan of ds_invalidate_cached_file_internal
(ds_manager.c:3048-3053): same body over t->output_files.  Note that the
source runs this loop without a preceding list_first_item, so it starts from
whatever cursor the list last had. -/
def scan_cancel_outputs (filename : String) (tid : Nat) : Nat → DsManager → DsManager
  | 0, q => q
  | fuel + 1, q =>
    match lookupTask q tid with
    | none => q
    | some t =>
      let (item, files) := t.output_files.nextItem
      let q := modifyTask q tid (fun t => { t with output_files := files })
      match item with
      | none => q
      | some tf =>
        if tf.cached_name = filename then
          let (q, _) := cancel_task_on_worker q tid DsTaskState.ready
          scan_cancel_outputs filename tid fuel q
        else
          scan_cancel_outputs filename tid fuel q

/-- The per-worker body of ds_invalidate_cached_file_internal
(ds_manager.c:3029-3057): skip workers that do not hold the file; otherwise
scan every assigned task - the input list after a list_first_item
(ds_manager.c:3039), the output list from its current cursor (there is no
list_first_item for it in the source) - and finally unlink the file from the
worker. -/
def invalidate_tasks_of_worker (q : DsManager) (filename : String) (wkey : String) : DsManager :=
  match lookupWorker q wkey with
  | none => q
  | some w =>
    if (assocLookup w.current_files filename).isNone then q
    else
      let q := w.current_tasks.foldl (fun q tid =>
        match lookupTask q tid with
        | none => q
        | some t =>
          let q := modifyTask q tid (fun t => { t with input_files := t.input_files.firstItem })
          let q := scan_cancel_inputs filename tid (t.input_files.items.length + 2) q
          scan_cancel_outputs filename tid (t.output_files.items.length + 2) q) q
      delete_worker_file q wkey filename 0 0

/-- ds_invalidate_cached_file_internal (ds_manager.c:3025-3058): walk every
worker and apply the per-worker body. -/
def ds_invalidate_cached_file_internal (q : DsManager) (filename : String) : DsManager :=
  (q.worker_table.map (fun w => w.hashkey)).foldl
    (fun q k => invalidate_tasks_of_worker q filename k) q

/-! ### Output retrieval completion -/

/-- Modelled from the spec: category_next_label (category machinery outside
src/).  Spec 4.4: on a resubmission after RESOURCE_EXHAUSTION the category
advances the task's resource_request "to the next label (FIRST - MAX -
ERROR)". -/
def category_next_label (r : CategoryAllocation) : CategoryAllocation :=
  match r with
  | CategoryAllocation.first => CategoryAllocation.max
  | CategoryAllocation.max => CategoryAllocation.error
  | CategoryAllocation.error => CategoryAllocation.error

/-- The completion tail of fetch_output_from_worker (ds_manager.c:1073-1133)
after a successful output transfer (the wire transfer itself and the monitor
summary parsing are outside the modelled state): delete uncacheable files,
stamp the completion time, accumulate category statistics, reap the task into
RETRIEVED, adjust the worker's finished-task count and clear its fast-abort
alarm, and - when the task's result is RESOURCE_EXHAUSTION and the category
advances its allocation label to something other than ERROR - store the new
label and requeue the task READY. -/
def fetch_output_completion (q : DsManager) (wkey : String) (tid : Nat) (now : Nat) :
    DsManager :=
  match lookupTask q tid with
  | none => q
  | some _ =>
    let q := delete_uncacheable_files q wkey tid
    let q := modifyTask q tid (fun t => { t with time_when_done := now })
    let q := ds_accumulate_task q tid
    let q := reap_task_from_worker q wkey tid DsTaskState.retrieved
    let q := modifyWorker q wkey (fun w =>
      { w with
        finished_tasks := w.finished_tasks - 1
        total_tasks_complete := w.total_tasks_complete + 1
        fast_abort_alarm := false })
    match lookupTask q tid with
    | none => q
    | some t =>
      if t.result = DsResult.resourceExhaustion then
        let (q, _) := ds_category_lookup_or_create q t.category
        let next := category_next_label t.resource_request
        if next = CategoryAllocation.error then q
        else
          let q := modifyTask q tid (fun t => { t with resource_request := next })
          change_task_state q tid DsTaskState.ready
      else q

/-! ### The wait loop -/

/-- Modelled from the spec: the DS_WAITFORTASK sentinel (ds_manager.h is not
under src/).  It is some negative sentinel that requests an unbounded wait
(stoptime 0 in ds_wait_internal); the claims only concern timeout = 0. -/
def DS_WAITFORTASK : Int := -1

/-- The timeout normalization of ds_wait_for_tag (ds_manager.c:3884-3897):
0 becomes 1 second ("Making it 1, we guarantee that the wait loop is executed
once"), and other invalid negative values become 5 seconds. -/
def ds_wait_effective_timeout (timeout : Int) : Int :=
  let timeout := if timeout = 0 then 1 else timeout
  if timeout ≠ DS_WAITFORTASK ∧ timeout < 0 then 5 else timeout

/-- The abstract environment of one ds_wait_internal call: `clock k` is the
k-th time(0) sample (sample 0 computes the stoptime, sample k+1 guards
iteration k), and `breaks k` tells whether iteration k leaves the loop through
one of its break/return paths (task completed without retrieve-many, pending
process, or quiescence after events). -/
structure WaitEnv where
  clock : Nat → Nat
  breaks : Nat → Bool

/-- The iteration structure of the ds_wait_internal loop
(ds_manager.c:4012-4169): iterate while time(0) is before the stoptime (or
forever when there is none), stopping early when an iteration breaks.  Returns
the number of loop-body executions within the given fuel. -/
def ds_wait_loop_steps (env : WaitEnv) (stoptime : Option Nat) : Nat → Nat → Nat
  | 0, k => k
  | fuel + 1, k =>
    if (match stoptime with
        | none => true
        | some s => decide (env.clock (k + 1) < s)) = true then
      if env.breaks k then k + 1
      else ds_wait_loop_steps env stoptime fuel (k + 1)
    else k

/-- The number of loop iterations performed by one call to the public wait
function (ds_wait - ds_wait_for_tag - ds_wait_internal): normalize the
timeout, compute the stoptime from the first clock sample
(ds_manager.c:4006), and run the loop. -/
def ds_wait_for_tag_iterations (timeout : Int) (env : WaitEnv) (fuel : Nat) : Nat :=
  let te := ds_wait_effective_timeout timeout
  let stoptime : Option Nat := if te = DS_WAITFORTASK then none else some (env.clock 0 + te.toNat)
  ds_wait_loop_steps env stoptime fuel 0

end DS

namespace DS

/-! ### Lemma toolkit: association lists and worker/task lookups -/

theorem assocLookup_insert_self {κ β : Type} [DecidableEq κ] (l : List (κ × β)) (k : κ) (v : β) :
    assocLookup (assocInsert l k v) k = some v := by
  induction l with
  | nil => simp [assocInsert, assocLookup]
  | cons p rest ih =>
    obtain ⟨k', v'⟩ := p
    by_cases h : k' = k
    · simp [assocInsert, assocLookup, h]
    · simp [assocInsert, assocLookup, h, ih]

theorem assocLookup_insert_ne {κ β : Type} [DecidableEq κ] (l : List (κ × β)) (k k' : κ)
    (v : β) (h : k ≠ k') : assocLookup (assocInsert l k v) k' = assocLookup l k' := by
  induction l with
  | nil => simp [assocInsert, assocLookup, h]
  | cons p rest ih =>
    obtain ⟨k0, v0⟩ := p
    by_cases h0 : k0 = k
    · subst h0
      simp [assocInsert, assocLookup, h]
    · simp [assocInsert, assocLookup, h0, ih]

theorem assocInsert_keys_of_mem {κ β : Type} [DecidableEq κ] (l : List (κ × β)) (k : κ)
    (v v' : β) (h : assocLookup l k = some v) :
    (assocInsert l k v').map Prod.fst = l.map Prod.fst := by
  induction l with
  | nil => simp [assocLookup] at h
  | cons p rest ih =>
    obtain ⟨k0, v0⟩ := p
    by_cases h0 : k0 = k
    · subst h0
      simp [assocInsert]
    · simp [assocLookup, h0] at h
      simp [assocInsert, h0, ih h]

theorem findWorker_map (l : List DsWorkerInfo) (k : String) (g : DsWorkerInfo → DsWorkerInfo)
    (hg : ∀ w, (g w).hashkey = w.hashkey) :
    findWorker (l.map g) k = (findWorker l k).map g := by
  induction l with
  | nil => rfl
  | cons w ws ih =>
    by_cases h : w.hashkey = k
    · simp [findWorker, hg, h]
    · simp [findWorker, hg, h, ih]

theorem findWorker_hashkey {l : List DsWorkerInfo} {k : String} {w : DsWorkerInfo}
    (h : findWorker l k = some w) : w.hashkey = k := by
  induction l with
  | nil => simp [findWorker] at h
  | cons w0 ws ih =>
    by_cases h0 : w0.hashkey = k
    · simp [findWorker, h0] at h
      subst h
      exact h0
    · simp [findWorker, h0] at h
      exact ih h

theorem findWorker_filter_self (l : List DsWorkerInfo) (k : String) :
    findWorker (l.filter (fun w2 => !(w2.hashkey == k))) k = none := by
  induction l with
  | nil => rfl
  | cons w ws ih =>
    by_cases h : w.hashkey = k
    · simpa [List.filter, h] using ih
    · simp only [List.filter]
      have hb : (w.hashkey == k) = false := by
        simpa using h
      simp [hb, findWorker, h, ih]

theorem listMapSelf {α : Type} (l : List α) (f : α → α) (h : ∀ x ∈ l, f x = x) :
    l.map f = l := by
  induction l with
  | nil => rfl
  | cons x xs ih =>
    simp only [List.map]
    rw [h x (by simp), ih (fun y hy => h y (by simp [hy]))]

/-- Looking up any worker after an in-place modification of one worker. -/
theorem lookupWorker_modifyWorker (q : DsManager) (k' k : String) (f : DsWorkerInfo → DsWorkerInfo)
    (hf : ∀ w, (f w).hashkey = w.hashkey) :
    lookupWorker (modifyWorker q k' f) k =
      (lookupWorker q k).map (fun w => if w.hashkey = k' then f w else w) := by
  unfold lookupWorker modifyWorker
  exact findWorker_map _ _ _ (fun w => by by_cases h : w.hashkey = k' <;> simp [h, hf])

theorem lookupWorker_modifyWorker_self (q : DsManager) (k : String)
    (f : DsWorkerInfo → DsWorkerInfo) (hf : ∀ w, (f w).hashkey = w.hashkey) :
    lookupWorker (modifyWorker q k f) k = (lookupWorker q k).map f := by
  rw [lookupWorker_modifyWorker q k k f hf]
  cases h : lookupWorker q k with
  | none => rfl
  | some w =>
    have : w.hashkey = k := findWorker_hashkey h
    simp [this]

theorem assocLookup_mapModify {β : Type} (l : List (Nat × β)) (tid : Nat) (f : β → β) :
    assocLookup (l.map (fun p => if p.1 = tid then (p.1, f p.2) else p)) tid =
      (assocLookup l tid).map f := by
  induction l with
  | nil => rfl
  | cons p rest ih =>
    obtain ⟨k, v⟩ := p
    by_cases h : k = tid
    · subst h
      rw [List.map_cons, if_pos (show (k, v).1 = k from rfl)]
      simp [assocLookup]
    · rw [List.map_cons, if_neg (show ¬ ((k, v).1 = tid) from h)]
      simp [assocLookup, h, ih]

theorem lookupTask_modifyTask_self (q : DsManager) (tid : Nat) (f : DsTask → DsTask) :
    lookupTask (modifyTask q tid f) tid = (lookupTask q tid).map f := by
  unfold lookupTask modifyTask
  exact assocLookup_mapModify q.tasks tid f

end DS

namespace DS

/-! ### Frame lemmas -/

theorem update_max_worker_shape (q : DsManager) (k : String) :
    ∃ m, update_max_worker q k = { q with current_max_worker := m } := by
  unfold update_max_worker
  cases h : lookupWorker q k with
  | none => exact ⟨q.current_max_worker, rfl⟩
  | some w =>
    by_cases h1 : w.resources.workers.total < 1
    · simp only [h1, if_true]
      exact ⟨q.current_max_worker, rfl⟩
    · simp only [h1, if_false]
      exact ⟨_, rfl⟩

@[simp] theorem update_max_worker_worker_table (q : DsManager) (k : String) :
    (update_max_worker q k).worker_table = q.worker_table := by
  obtain ⟨m, hm⟩ := update_max_worker_shape q k
  rw [hm]

@[simp] theorem update_max_worker_tasks (q : DsManager) (k : String) :
    (update_max_worker q k).tasks = q.tasks := by
  obtain ⟨m, hm⟩ := update_max_worker_shape q k
  rw [hm]

@[simp] theorem update_max_worker_ready_list (q : DsManager) (k : String) :
    (update_max_worker q k).ready_list = q.ready_list := by
  obtain ⟨m, hm⟩ := update_max_worker_shape q k
  rw [hm]

@[simp] theorem update_max_worker_blocklist (q : DsManager) (k : String) :
    (update_max_worker q k).blocklist = q.blocklist := by
  obtain ⟨m, hm⟩ := update_max_worker_shape q k
  rw [hm]

@[simp] theorem update_max_worker_stats (q : DsManager) (k : String) :
    (update_max_worker q k).stats = q.stats := by
  obtain ⟨m, hm⟩ := update_max_worker_shape q k
  rw [hm]

@[simp] theorem update_max_worker_sent (q : DsManager) (k : String) :
    (update_max_worker q k).sent = q.sent := by
  obtain ⟨m, hm⟩ := update_max_worker_shape q k
  rw [hm]

@[simp] theorem count_worker_resources_tasks (q : DsManager) (k : String) :
    (count_worker_resources q k).tasks = q.tasks := by
  unfold count_worker_resources
  simp [modifyWorker]

@[simp] theorem count_worker_resources_ready_list (q : DsManager) (k : String) :
    (count_worker_resources q k).ready_list = q.ready_list := by
  unfold count_worker_resources
  simp [modifyWorker]

@[simp] theorem count_worker_resources_blocklist (q : DsManager) (k : String) :
    (count_worker_resources q k).blocklist = q.blocklist := by
  unfold count_worker_resources
  simp [modifyWorker]

@[simp] theorem count_worker_resources_stats (q : DsManager) (k : String) :
    (count_worker_resources q k).stats = q.stats := by
  unfold count_worker_resources
  simp [modifyWorker]

@[simp] theorem count_worker_resources_sent (q : DsManager) (k : String) :
    (count_worker_resources q k).sent = q.sent := by
  unfold count_worker_resources
  simp [modifyWorker]

@[simp] theorem push_task_to_ready_list_worker_table (q : DsManager) (tid : Nat) :
    (push_task_to_ready_list q tid).worker_table = q.worker_table := by
  unfold push_task_to_ready_list
  cases h : lookupTask q tid with
  | none => rfl
  | some t =>
    by_cases h1 : t.result = DsResult.resourceExhaustion <;> simp [h1, modifyTask]

@[simp] theorem push_task_to_ready_list_blocklist (q : DsManager) (tid : Nat) :
    (push_task_to_ready_list q tid).blocklist = q.blocklist := by
  unfold push_task_to_ready_list
  cases h : lookupTask q tid with
  | none => rfl
  | some t =>
    by_cases h1 : t.result = DsResult.resourceExhaustion <;> simp [h1, modifyTask]

@[simp] theorem push_task_to_ready_list_stats (q : DsManager) (tid : Nat) :
    (push_task_to_ready_list q tid).stats = q.stats := by
  unfold push_task_to_ready_list
  cases h : lookupTask q tid with
  | none => rfl
  | some t =>
    by_cases h1 : t.result = DsResult.resourceExhaustion <;> simp [h1, modifyTask]

@[simp] theorem push_task_to_ready_list_sent (q : DsManager) (tid : Nat) :
    (push_task_to_ready_list q tid).sent = q.sent := by
  unfold push_task_to_ready_list
  cases h : lookupTask q tid with
  | none => rfl
  | some t =>
    by_cases h1 : t.result = DsResult.resourceExhaustion <;> simp [h1, modifyTask]

@[simp] theorem change_task_state_worker_table (q : DsManager) (tid : Nat) (s : DsTaskState) :
    (change_task_state q tid s).worker_table = q.worker_table := by
  unfold change_task_state
  cases h : lookupTask q tid with
  | none => rfl
  | some t =>
    cases s <;>
      by_cases h1 : t.state = DsTaskState.ready <;>
        simp [h1, modifyTask]

@[simp] theorem change_task_state_blocklist (q : DsManager) (tid : Nat) (s : DsTaskState) :
    (change_task_state q tid s).blocklist = q.blocklist := by
  unfold change_task_state
  cases h : lookupTask q tid with
  | none => rfl
  | some t =>
    cases s <;>
      by_cases h1 : t.state = DsTaskState.ready <;>
        simp [h1, modifyTask]

@[simp] theorem change_task_state_stats (q : DsManager) (tid : Nat) (s : DsTaskState) :
    (change_task_state q tid s).stats = q.stats := by
  unfold change_task_state
  cases h : lookupTask q tid with
  | none => rfl
  | some t =>
    cases s <;>
      by_cases h1 : t.state = DsTaskState.ready <;>
        simp [h1, modifyTask]

@[simp] theorem change_task_state_sent (q : DsManager) (tid : Nat) (s : DsTaskState) :
    (change_task_state q tid s).sent = q.sent := by
  unfold change_task_state
  cases h : lookupTask q tid with
  | none => rfl
  | some t =>
    cases s <;>
      by_cases h1 : t.state = DsTaskState.ready <;>
        simp [h1, modifyTask]

end DS

namespace DS

@[simp] theorem reap_task_from_worker_blocklist (q : DsManager) (wkey : String) (tid : Nat)
    (s : DsTaskState) : (reap_task_from_worker q wkey tid s).blocklist = q.blocklist := by
  unfold reap_task_from_worker
  cases h : lookupTask q tid with
  | none => rfl
  | some t =>
    by_cases h1 : t.worker = some wkey <;> simp [h1, modifyWorker, modifyTask]

@[simp] theorem reap_task_from_worker_stats (q : DsManager) (wkey : String) (tid : Nat)
    (s : DsTaskState) : (reap_task_from_worker q wkey tid s).stats = q.stats := by
  unfold reap_task_from_worker
  cases h : lookupTask q tid with
  | none => rfl
  | some t =>
    by_cases h1 : t.worker = some wkey <;> simp [h1, modifyWorker, modifyTask]

@[simp] theorem delete_worker_file_blocklist (q : DsManager) (wkey fn : String) (fl ef : Nat) :
    (delete_worker_file q wkey fn fl ef).blocklist = q.blocklist := by
  unfold delete_worker_file
  split <;> simp [ds_manager_send, modifyWorker]

@[simp] theorem delete_worker_file_tasks (q : DsManager) (wkey fn : String) (fl ef : Nat) :
    (delete_worker_file q wkey fn fl ef).tasks = q.tasks := by
  unfold delete_worker_file
  split <;> simp [ds_manager_send, modifyWorker]

@[simp] theorem delete_worker_file_ready_list (q : DsManager) (wkey fn : String) (fl ef : Nat) :
    (delete_worker_file q wkey fn fl ef).ready_list = q.ready_list := by
  unfold delete_worker_file
  split <;> simp [ds_manager_send, modifyWorker]

@[simp] theorem delete_worker_file_stats (q : DsManager) (wkey fn : String) (fl ef : Nat) :
    (delete_worker_file q wkey fn fl ef).stats = q.stats := by
  unfold delete_worker_file
  split <;> simp [ds_manager_send, modifyWorker]

theorem foldl_delete_blocklist (items : List DsFile) (wkey : String) (ef : Nat) (q : DsManager) :
    (items.foldl (fun q tf => delete_worker_file q wkey tf.cached_name tf.flags ef) q).blocklist
      = q.blocklist := by
  induction items generalizing q with
  | nil => rfl
  | cons tf rest ih => simp [List.foldl, ih]

theorem foldl_delete_tasks (items : List DsFile) (wkey : String) (ef : Nat) (q : DsManager) :
    (items.foldl (fun q tf => delete_worker_file q wkey tf.cached_name tf.flags ef) q).tasks
      = q.tasks := by
  induction items generalizing q with
  | nil => rfl
  | cons tf rest ih => simp [List.foldl, ih]

theorem foldl_delete_ready_list (items : List DsFile) (wkey : String) (ef : Nat) (q : DsManager) :
    (items.foldl (fun q tf => delete_worker_file q wkey tf.cached_name tf.flags ef) q).ready_list
      = q.ready_list := by
  induction items generalizing q with
  | nil => rfl
  | cons tf rest ih => simp [List.foldl, ih]

theorem foldl_delete_stats (items : List DsFile) (wkey : String) (ef : Nat) (q : DsManager) :
    (items.foldl (fun q tf => delete_worker_file q wkey tf.cached_name tf.flags ef) q).stats
      = q.stats := by
  induction items generalizing q with
  | nil => rfl
  | cons tf rest ih => simp [List.foldl, ih]

@[simp] theorem delete_worker_files_blocklist (q : DsManager) (wkey : String) (files : CList DsFile)
    (ef : Nat) : (delete_worker_files q wkey files ef).1.blocklist = q.blocklist := by
  unfold delete_worker_files
  simp [foldl_delete_blocklist]

@[simp] theorem delete_worker_files_tasks (q : DsManager) (wkey : String) (files : CList DsFile)
    (ef : Nat) : (delete_worker_files q wkey files ef).1.tasks = q.tasks := by
  unfold delete_worker_files
  simp [foldl_delete_tasks]

@[simp] theorem delete_worker_files_ready_list (q : DsManager) (wkey : String)
    (files : CList DsFile) (ef : Nat) :
    (delete_worker_files q wkey files ef).1.ready_list = q.ready_list := by
  unfold delete_worker_files
  simp [foldl_delete_ready_list]

@[simp] theorem delete_worker_files_stats (q : DsManager) (wkey : String) (files : CList DsFile)
    (ef : Nat) : (delete_worker_files q wkey files ef).1.stats = q.stats := by
  unfold delete_worker_files
  simp [foldl_delete_stats]

@[simp] theorem delete_worker_files_snd (q : DsManager) (wkey : String) (files : CList DsFile)
    (ef : Nat) : (delete_worker_files q wkey files ef).2 = files.exhaust := by
  unfold delete_worker_files
  rfl

end DS


namespace DS

/-! ### Projection lemmas for the primitive mutators -/

@[simp] theorem modifyTask_worker_table (q : DsManager) (tid : Nat) (f : DsTask → DsTask) :
    (modifyTask q tid f).worker_table = q.worker_table := rfl

@[simp] theorem modifyTask_ready_list (q : DsManager) (tid : Nat) (f : DsTask → DsTask) :
    (modifyTask q tid f).ready_list = q.ready_list := rfl

@[simp] theorem modifyTask_blocklist (q : DsManager) (tid : Nat) (f : DsTask → DsTask) :
    (modifyTask q tid f).blocklist = q.blocklist := rfl

@[simp] theorem modifyTask_categories (q : DsManager) (tid : Nat) (f : DsTask → DsTask) :
    (modifyTask q tid f).categories = q.categories := rfl

@[simp] theorem modifyTask_stats (q : DsManager) (tid : Nat) (f : DsTask → DsTask) :
    (modifyTask q tid f).stats = q.stats := rfl

@[simp] theorem modifyTask_sent (q : DsManager) (tid : Nat) (f : DsTask → DsTask) :
    (modifyTask q tid f).sent = q.sent := rfl

@[simp] theorem modifyWorker_tasks (q : DsManager) (k : String) (f : DsWorkerInfo → DsWorkerInfo) :
    (modifyWorker q k f).tasks = q.tasks := rfl

@[simp] theorem modifyWorker_ready_list (q : DsManager) (k : String)
    (f : DsWorkerInfo → DsWorkerInfo) : (modifyWorker q k f).ready_list = q.ready_list := rfl

@[simp] theorem modifyWorker_blocklist (q : DsManager) (k : String)
    (f : DsWorkerInfo → DsWorkerInfo) : (modifyWorker q k f).blocklist = q.blocklist := rfl

@[simp] theorem modifyWorker_categories (q : DsManager) (k : String)
    (f : DsWorkerInfo → DsWorkerInfo) : (modifyWorker q k f).categories = q.categories := rfl

@[simp] theorem modifyWorker_stats (q : DsManager) (k : String)
    (f : DsWorkerInfo → DsWorkerInfo) : (modifyWorker q k f).stats = q.stats := rfl

@[simp] theorem modifyWorker_sent (q : DsManager) (k : String)
    (f : DsWorkerInfo → DsWorkerInfo) : (modifyWorker q k f).sent = q.sent := rfl

@[simp] theorem send_worker_table (q : DsManager) (k m : String) :
    (ds_manager_send q k m).worker_table = q.worker_table := rfl

@[simp] theorem send_tasks (q : DsManager) (k m : String) :
    (ds_manager_send q k m).tasks = q.tasks := rfl

@[simp] theorem send_ready_list (q : DsManager) (k m : String) :
    (ds_manager_send q k m).ready_list = q.ready_list := rfl

@[simp] theorem send_blocklist (q : DsManager) (k m : String) :
    (ds_manager_send q k m).blocklist = q.blocklist := rfl

@[simp] theorem send_categories (q : DsManager) (k m : String) :
    (ds_manager_send q k m).categories = q.categories := rfl

@[simp] theorem send_stats (q : DsManager) (k m : String) :
    (ds_manager_send q k m).stats = q.stats := rfl

/-- assocLookup through an in-place task modification, stated on the raw task
table so that simp can apply it after lookupTask has been unfolded. -/
@[simp] theorem assocLookup_modifyTask_self (q : DsManager) (tid : Nat) (f : DsTask → DsTask) :
    assocLookup (modifyTask q tid f).tasks tid = (assocLookup q.tasks tid).map f :=
  assocLookup_mapModify q.tasks tid f

/-! ### Task-value lemmas through the state-change chain.
These are stated on the raw task table (assocLookup ... .tasks) so that simp
can chain them after lookupTask has been unfolded. -/

theorem ds_task_update_result_unknown (t : DsTask) :
    ds_task_update_result t DsResult.unknown = t := by
  simp [ds_task_update_result]

@[simp] theorem push_tasks_lookup (q : DsManager) (tid : Nat) :
    assocLookup (push_task_to_ready_list q tid).tasks tid =
      (assocLookup q.tasks tid).map (fun t => ds_task_clean t false) := by
  unfold push_task_to_ready_list
  cases h : lookupTask q tid with
  | none =>
    simp only [h]
    simp [lookupTask] at h
    simp [h]
  | some t =>
    simp only [h]
    simp [lookupTask] at h
    by_cases h1 : t.result = DsResult.resourceExhaustion <;> simp [h1, h]

theorem push_ready_list_exhaustion (q : DsManager) (tid : Nat) (t : DsTask)
    (h : lookupTask q tid = some t) (hres : t.result = DsResult.resourceExhaustion) :
    (push_task_to_ready_list q tid).ready_list = tid :: q.ready_list := by
  unfold push_task_to_ready_list
  simp [h, hres]

@[simp] theorem change_ready_tasks_lookup (q : DsManager) (tid : Nat) :
    assocLookup (change_task_state q tid DsTaskState.ready).tasks tid =
      (assocLookup q.tasks tid).map
        (fun t => ds_task_clean { t with state := DsTaskState.ready } false) := by
  unfold change_task_state
  cases h : lookupTask q tid with
  | none =>
    simp only [h]
    simp [lookupTask] at h
    simp [h]
  | some t =>
    simp only [h]
    simp [lookupTask] at h
    by_cases h1 : t.state = DsTaskState.ready <;>
      simp [h1, h, ds_task_update_result_unknown, Option.map_map, Function.comp]

theorem change_ready_ready_list_exhaustion (q : DsManager) (tid : Nat) (t : DsTask)
    (h : lookupTask q tid = some t) (hres : t.result = DsResult.resourceExhaustion)
    (hst : t.state ≠ DsTaskState.ready) :
    (change_task_state q tid DsTaskState.ready).ready_list = tid :: q.ready_list := by
  unfold change_task_state
  simp only [h]
  rw [if_neg hst]
  refine push_ready_list_exhaustion _ tid
    (ds_task_update_result { t with state := DsTaskState.ready } DsResult.unknown) ?_ ?_
  · simp [lookupTask] at h ⊢
    simp [h]
  · simp [ds_task_update_result_unknown, hres]

theorem change_mid_tasks_lookup (q : DsManager) (tid : Nat) (s : DsTaskState)
    (hs1 : s ≠ DsTaskState.ready) (hs2 : s ≠ DsTaskState.done)
    (hs3 : s ≠ DsTaskState.canceled) :
    assocLookup (change_task_state q tid s).tasks tid =
      (assocLookup q.tasks tid).map (fun t => { t with state := s }) := by
  unfold change_task_state
  cases h : lookupTask q tid with
  | none =>
    simp only [h]
    simp [lookupTask] at h
    simp [h]
  | some t =>
    simp only [h]
    simp [lookupTask] at h
    cases s with
    | ready => exact absurd rfl hs1
    | done => exact absurd rfl hs2
    | canceled => exact absurd rfl hs3
    | unknown =>
      by_cases h1 : t.state = DsTaskState.ready <;> simp [h1, h]
    | running =>
      by_cases h1 : t.state = DsTaskState.ready <;> simp [h1, h]
    | waitingRetrieval =>
      by_cases h1 : t.state = DsTaskState.ready <;> simp [h1, h]
    | retrieved =>
      by_cases h1 : t.state = DsTaskState.ready <;> simp [h1, h]

theorem change_mid_ready_list (q : DsManager) (tid : Nat) (s : DsTaskState) (t : DsTask)
    (h : lookupTask q tid = some t) (hst : t.state ≠ DsTaskState.ready)
    (hs1 : s ≠ DsTaskState.ready) :
    (change_task_state q tid s).ready_list = q.ready_list := by
  unfold change_task_state
  simp only [h]
  rw [if_neg hst]
  cases s with
  | ready => exact absurd rfl hs1
  | unknown => simp
  | running => simp
  | waitingRetrieval => simp
  | retrieved => simp
  | done => simp
  | canceled => simp

end DS


namespace DS

/-- The task record after a reap into READY. -/
theorem reap_ready_tasks_lookup (q : DsManager) (wkey : String) (tid : Nat) (t : DsTask)
    (h : lookupTask q tid = some t) :
    assocLookup (reap_task_from_worker q wkey tid DsTaskState.ready).tasks tid =
      some (ds_task_clean { t with worker := none, state := DsTaskState.ready } false) := by
  unfold reap_task_from_worker
  simp only [h]
  simp only [lookupTask] at h
  rw [count_worker_resources_tasks]
  by_cases h1 : t.worker = some wkey <;> simp [h1, h]

/-- The task record after a reap into RETRIEVED. -/
theorem reap_retrieved_tasks_lookup (q : DsManager) (wkey : String) (tid : Nat) (t : DsTask)
    (h : lookupTask q tid = some t) :
    assocLookup (reap_task_from_worker q wkey tid DsTaskState.retrieved).tasks tid =
      some { t with worker := none, state := DsTaskState.retrieved } := by
  unfold reap_task_from_worker
  simp only [h]
  simp only [lookupTask] at h
  rw [count_worker_resources_tasks,
    change_mid_tasks_lookup _ tid DsTaskState.retrieved (by decide) (by decide) (by decide)]
  by_cases h1 : t.worker = some wkey <;> simp [h1, h]

/-- A reap into RETRIEVED of a task that is not READY leaves the ready list
unchanged. -/
theorem reap_retrieved_ready_list (q : DsManager) (wkey : String) (tid : Nat) (t : DsTask)
    (h : lookupTask q tid = some t) (hst : t.state ≠ DsTaskState.ready) :
    (reap_task_from_worker q wkey tid DsTaskState.retrieved).ready_list = q.ready_list := by
  unfold reap_task_from_worker
  simp only [h]
  rw [count_worker_resources_ready_list]
  have hx : lookupTask (modifyTask
      (modifyWorker (if t.worker = some wkey then
        modifyWorker q wkey (fun w =>
          { w with total_task_time := w.total_task_time + t.time_workers_execute_last })
      else q) wkey (fun w =>
        { w with
          current_tasks_boxes := assocErase w.current_tasks_boxes tid
          current_tasks := w.current_tasks.erase tid }))
      tid (fun t => { t with worker := none })) tid = some { t with worker := none } := by
    simp only [lookupTask] at h ⊢
    by_cases h1 : t.worker = some wkey <;> simp [h1, h]
  rw [change_mid_ready_list _ tid DsTaskState.retrieved _ hx (by simpa using hst) (by decide)]
  by_cases h1 : t.worker = some wkey <;> simp [h1]

/-! ### Key-preserving worker-table transformations -/

/-- `l₂` is `l₁` with some records modified in place (no key changes, no
insertion or removal). -/
def KeyPreservingMap (l₁ l₂ : List DsWorkerInfo) : Prop :=
  ∃ g, l₂ = l₁.map g ∧ ∀ w, (g w).hashkey = w.hashkey

theorem kpm_refl (l : List DsWorkerInfo) : KeyPreservingMap l l :=
  ⟨id, by simp, fun _ => rfl⟩

theorem kpm_trans {l₁ l₂ l₃ : List DsWorkerInfo}
    (h12 : KeyPreservingMap l₁ l₂) (h23 : KeyPreservingMap l₂ l₃) :
    KeyPreservingMap l₁ l₃ := by
  obtain ⟨g1, hg1, hk1⟩ := h12
  obtain ⟨g2, hg2, hk2⟩ := h23
  exact ⟨g2 ∘ g1, by simp [hg2, hg1, List.map_map], fun w => by simp [hk2, hk1]⟩

theorem kpm_of_eq {l₁ l₂ : List DsWorkerInfo} (h : l₂ = l₁) : KeyPreservingMap l₁ l₂ := by
  subst h
  exact kpm_refl _

theorem kpm_modifyWorker (q : DsManager) (k : String) (f : DsWorkerInfo → DsWorkerInfo)
    (hf : ∀ w, (f w).hashkey = w.hashkey) :
    KeyPreservingMap q.worker_table (modifyWorker q k f).worker_table := by
  refine ⟨fun w => if w.hashkey = k then f w else w, rfl, fun w => ?_⟩
  by_cases h : w.hashkey = k <;> simp [h, hf]

theorem kpm_lookup_isSome {l₁ l₂ : List DsWorkerInfo} (h : KeyPreservingMap l₁ l₂)
    (k : String) : (findWorker l₂ k).isSome = (findWorker l₁ k).isSome := by
  obtain ⟨g, hg, hk⟩ := h
  subst hg
  rw [findWorker_map _ _ _ hk]
  cases findWorker l₁ k <;> simp

theorem kpm_delete_worker_file (q : DsManager) (wkey fn : String) (fl ef : Nat) :
    KeyPreservingMap q.worker_table (delete_worker_file q wkey fn fl ef).worker_table := by
  unfold delete_worker_file
  split
  · exact kpm_modifyWorker _ _ _ (fun w => rfl)
  · exact kpm_refl _

theorem kpm_foldl_delete (items : List DsFile) (wkey : String) (ef : Nat) (q : DsManager) :
    KeyPreservingMap q.worker_table
      ((items.foldl (fun q tf => delete_worker_file q wkey tf.cached_name tf.flags ef) q)).worker_table := by
  induction items generalizing q with
  | nil => exact kpm_refl _
  | cons tf rest ih =>
    exact kpm_trans (kpm_delete_worker_file q wkey tf.cached_name tf.flags ef) (ih _)

theorem kpm_delete_worker_files (q : DsManager) (wkey : String) (files : CList DsFile) (ef : Nat) :
    KeyPreservingMap q.worker_table (delete_worker_files q wkey files ef).1.worker_table := by
  unfold delete_worker_files
  exact kpm_foldl_delete _ _ _ _

theorem kpm_count (q : DsManager) (wkey : String) :
    KeyPreservingMap q.worker_table (count_worker_resources q wkey).worker_table := by
  unfold count_worker_resources
  refine kpm_trans ?_ (kpm_modifyWorker _ wkey _ (fun w => by
    unfold worker_recount_inuse
    split <;> rfl))
  refine kpm_trans ?_ (kpm_of_eq (update_max_worker_worker_table _ wkey))
  exact kpm_modifyWorker q wkey _ (fun w => rfl)

theorem kpm_reap (q : DsManager) (wkey : String) (tid : Nat) (s : DsTaskState) :
    KeyPreservingMap q.worker_table (reap_task_from_worker q wkey tid s).worker_table := by
  unfold reap_task_from_worker
  cases h : lookupTask q tid with
  | none => exact kpm_refl _
  | some t =>
    simp only [h]
    refine kpm_trans ?_ (kpm_count _ wkey)
    refine kpm_trans ?_ (kpm_of_eq (change_task_state_worker_table _ tid s))
    rw [modifyTask_worker_table]
    refine kpm_trans ?_ (kpm_modifyWorker _ wkey _ (fun w => rfl))
    by_cases h1 : t.worker = some wkey
    · simp only [h1, if_true, ite_true]
      exact kpm_modifyWorker q wkey _ (fun w => rfl)
    · simp only [h1, if_false, ite_false]
      exact kpm_refl _

theorem kpm_cancel (q : DsManager) (tid : Nat) (s : DsTaskState) :
    KeyPreservingMap q.worker_table (cancel_task_on_worker q tid s).1.worker_table := by
  unfold cancel_task_on_worker
  cases h : lookupTask q tid with
  | none => exact kpm_refl _
  | some t =>
    simp only [h]
    cases hw : t.worker with
    | none =>
      exact kpm_of_eq (change_task_state_worker_table _ tid s)
    | some wkey =>
      simp only
      refine kpm_trans ?_ (kpm_reap _ wkey tid s)
      rw [modifyTask_worker_table]
      refine kpm_trans ?_ (kpm_delete_worker_files _ wkey t.output_files 0)
      rw [modifyTask_worker_table]
      refine kpm_trans ?_ (kpm_delete_worker_files _ wkey t.input_files DS_CACHE)
      rw [send_worker_table]
      exact kpm_refl _

end DS

namespace DS

/-! ### Frame lemmas for cancellation and worker removal -/

@[simp] theorem cancel_blocklist (q : DsManager) (tid : Nat) (s : DsTaskState) :
    (cancel_task_on_worker q tid s).1.blocklist = q.blocklist := by
  unfold cancel_task_on_worker
  cases h : lookupTask q tid with
  | none => rfl
  | some t =>
    simp only [h]
    cases hw : t.worker with
    | none => simp
    | some wkey =>
      simp only
      rw [reap_task_from_worker_blocklist, modifyTask_blocklist, delete_worker_files_blocklist,
        modifyTask_blocklist, delete_worker_files_blocklist, send_blocklist]

/-- The task record after a worker-side cancellation into READY. -/
theorem cancel_ready_tasks_lookup (q : DsManager) (tid : Nat) (t : DsTask) (wkey : String)
    (h : lookupTask q tid = some t) (hw : t.worker = some wkey) :
    assocLookup (cancel_task_on_worker q tid DsTaskState.ready).1.tasks tid =
      some (ds_task_clean
        { t with
          input_files := t.input_files.exhaust
          output_files := t.output_files.exhaust
          worker := none
          state := DsTaskState.ready } false) := by
  unfold cancel_task_on_worker
  simp only [h, hw]
  rw [reap_ready_tasks_lookup _ wkey tid
    ({ t with input_files := t.input_files.exhaust, output_files := t.output_files.exhaust })]
  simp only [lookupTask] at h ⊢
  simp [h]

@[simp] theorem cleanup_reap_one_blocklist (wkey : String) (now : Nat) (q : DsManager)
    (tid : Nat) : (cleanup_reap_one wkey now q tid).blocklist = q.blocklist := by
  unfold cleanup_reap_one
  cases h : lookupTask q tid with
  | none => rfl
  | some t =>
    simp only [h]
    split <;> simp

@[simp] theorem cleanup_reap_one_stats (wkey : String) (now : Nat) (q : DsManager)
    (tid : Nat) : (cleanup_reap_one wkey now q tid).stats = q.stats := by
  unfold cleanup_reap_one
  cases h : lookupTask q tid with
  | none => rfl
  | some t =>
    simp only [h]
    split <;> simp

theorem foldl_cleanup_blocklist (tids : List Nat) (wkey : String) (now : Nat) (q : DsManager) :
    (tids.foldl (cleanup_reap_one wkey now) q).blocklist = q.blocklist := by
  induction tids generalizing q with
  | nil => rfl
  | cons tid rest ih => simp [List.foldl, ih]

theorem foldl_cleanup_stats (tids : List Nat) (wkey : String) (now : Nat) (q : DsManager) :
    (tids.foldl (cleanup_reap_one wkey now) q).stats = q.stats := by
  induction tids generalizing q with
  | nil => rfl
  | cons tid rest ih => simp [List.foldl, ih]

@[simp] theorem cleanup_worker_blocklist (q : DsManager) (wkey : String) (now : Nat) :
    (cleanup_worker q wkey now).blocklist = q.blocklist := by
  unfold cleanup_worker
  cases h : lookupWorker q wkey with
  | none => rfl
  | some w0 =>
    simp only [h]
    rw [modifyWorker_blocklist, foldl_cleanup_blocklist, modifyWorker_blocklist]

@[simp] theorem cleanup_worker_stats (q : DsManager) (wkey : String) (now : Nat) :
    (cleanup_worker q wkey now).stats = q.stats := by
  unfold cleanup_worker
  cases h : lookupWorker q wkey with
  | none => rfl
  | some w0 =>
    simp only [h]
    rw [modifyWorker_stats, foldl_cleanup_stats, modifyWorker_stats]

theorem foldl_find_max_worker_table (ks : List String) (q : DsManager) :
    (ks.foldl (fun q k =>
      match lookupWorker q k with
      | some w => if w.resources.workers.total > 0 then update_max_worker q k else q
      | none => q) q).worker_table = q.worker_table := by
  induction ks generalizing q with
  | nil => rfl
  | cons k ks ih =>
    simp only [List.foldl]
    rw [ih]
    cases h : lookupWorker q k with
    | none => rfl
    | some w =>
      by_cases h1 : w.resources.workers.total > 0 <;> simp [h1]

theorem foldl_find_max_blocklist (ks : List String) (q : DsManager) :
    (ks.foldl (fun q k =>
      match lookupWorker q k with
      | some w => if w.resources.workers.total > 0 then update_max_worker q k else q
      | none => q) q).blocklist = q.blocklist := by
  induction ks generalizing q with
  | nil => rfl
  | cons k ks ih =>
    simp only [List.foldl]
    rw [ih]
    cases h : lookupWorker q k with
    | none => rfl
    | some w =>
      by_cases h1 : w.resources.workers.total > 0 <;> simp [h1]

theorem foldl_find_max_stats (ks : List String) (q : DsManager) :
    (ks.foldl (fun q k =>
      match lookupWorker q k with
      | some w => if w.resources.workers.total > 0 then update_max_worker q k else q
      | none => q) q).stats = q.stats := by
  induction ks generalizing q with
  | nil => rfl
  | cons k ks ih =>
    simp only [List.foldl]
    rw [ih]
    cases h : lookupWorker q k with
    | none => rfl
    | some w =>
      by_cases h1 : w.resources.workers.total > 0 <;> simp [h1]

@[simp] theorem find_max_worker_worker_table (q : DsManager) :
    (find_max_worker q).worker_table = q.worker_table := by
  unfold find_max_worker
  rw [foldl_find_max_worker_table]

@[simp] theorem find_max_worker_blocklist (q : DsManager) :
    (find_max_worker q).blocklist = q.blocklist := by
  unfold find_max_worker
  rw [foldl_find_max_blocklist]

@[simp] theorem find_max_worker_stats (q : DsManager) :
    (find_max_worker q).stats = q.stats := by
  unfold find_max_worker
  rw [foldl_find_max_stats]

/-- After remove_worker, the worker is gone from the table. -/
theorem remove_worker_lookup_none (q : DsManager) (wkey : String) (now : Nat) :
    lookupWorker (remove_worker q wkey now) wkey = none := by
  unfold remove_worker
  cases h : lookupWorker q wkey with
  | none => exact h
  | some w =>
    simp only [h]
    unfold lookupWorker
    rw [find_max_worker_worker_table]
    exact findWorker_filter_self _ _

@[simp] theorem remove_worker_blocklist (q : DsManager) (wkey : String) (now : Nat) :
    (remove_worker q wkey now).blocklist = q.blocklist := by
  unfold remove_worker
  cases h : lookupWorker q wkey with
  | none => rfl
  | some w =>
    simp only [h]
    rw [find_max_worker_blocklist]
    by_cases h1 : w.wtype = DsWorkerType.worker <;> simp [h1]

theorem remove_worker_workers_joined (q : DsManager) (wkey : String) (now : Nat) :
    (remove_worker q wkey now).stats.workers_joined = q.stats.workers_joined := by
  unfold remove_worker
  cases h : lookupWorker q wkey with
  | none => rfl
  | some w =>
    simp only [h]
    rw [find_max_worker_stats]
    by_cases h1 : w.wtype = DsWorkerType.worker <;> simp [h1]

end DS

namespace DS

/-! ### The inuse recount property -/

/-- The worker's inuse counters equal the per-resource sums over its boxes. -/
def inuse_matches_boxes (w : DsWorkerInfo) : Prop :=
  w.resources.cores.inuse = boxesSum w.current_tasks_boxes (fun b => b.cores) ∧
  w.resources.memory.inuse = boxesSum w.current_tasks_boxes (fun b => b.memory) ∧
  w.resources.disk.inuse = boxesSum w.current_tasks_boxes (fun b => b.disk) ∧
  w.resources.gpus.inuse = boxesSum w.current_tasks_boxes (fun b => b.gpus)

/-- The worker's inuse counters are all zero. -/
def inuse_zero (w : DsWorkerInfo) : Prop :=
  w.resources.cores.inuse = 0 ∧ w.resources.memory.inuse = 0 ∧
  w.resources.disk.inuse = 0 ∧ w.resources.gpus.inuse = 0

@[simp] theorem lookupWorker_update_max (q : DsManager) (k' k : String) :
    lookupWorker (update_max_worker q k') k = lookupWorker q k := by
  unfold lookupWorker
  rw [update_max_worker_worker_table]

theorem count_inuse (q : DsManager) (wkey : String) (w' : DsWorkerInfo)
    (h : lookupWorker (count_worker_resources q wkey) wkey = some w') :
    (1 ≤ w'.resources.workers.total → inuse_matches_boxes w') ∧
    (w'.resources.workers.total < 1 → inuse_zero w') := by
  unfold count_worker_resources at h
  rw [lookupWorker_modifyWorker_self _ _ worker_recount_inuse (fun w => by
    unfold worker_recount_inuse
    split <;> rfl)] at h
  rw [lookupWorker_update_max] at h
  rw [lookupWorker_modifyWorker_self _ _ worker_zero_inuse (fun w => rfl)] at h
  cases hw : lookupWorker q wkey with
  | none => rw [hw] at h; simp at h
  | some w =>
    rw [hw] at h
    simp only [Option.map_some'] at h
    unfold worker_recount_inuse at h
    by_cases h1 : (worker_zero_inuse w).resources.workers.total < 1
    · rw [if_pos h1] at h
      injection h with h
      subst h
      refine ⟨fun h2 => absurd h2 (by omega), fun _ => ?_⟩
      simp [inuse_zero, worker_zero_inuse]
    · rw [if_neg h1] at h
      injection h with h
      subst h
      refine ⟨fun _ => ?_, fun h2 => absurd h2 (by simp [worker_zero_inuse] at h1 ⊢; omega)⟩
      simp [inuse_matches_boxes, worker_zero_inuse]

theorem reap_inuse (q : DsManager) (wkey : String) (tid : Nat) (st : DsTaskState) (t : DsTask)
    (w' : DsWorkerInfo) (ht : lookupTask q tid = some t)
    (h : lookupWorker (reap_task_from_worker q wkey tid st) wkey = some w') :
    (1 ≤ w'.resources.workers.total → inuse_matches_boxes w') ∧
    (w'.resources.workers.total < 1 → inuse_zero w') := by
  unfold reap_task_from_worker at h
  simp only [ht] at h
  exact count_inuse _ _ _ h

theorem end_of_resource_update_inuse (q : DsManager) (wkey : String) (w' : DsWorkerInfo)
    (h : lookupWorker (handle_info_end_of_resource_update q wkey) wkey = some w') :
    (1 ≤ w'.resources.workers.total → inuse_matches_boxes w') ∧
    (w'.resources.workers.total < 1 → inuse_zero w') := by
  unfold handle_info_end_of_resource_update at h
  exact count_inuse _ _ _ h

/-! ### Worker presence and alarm lemmas -/

theorem cancel_lookupWorker_isSome (q : DsManager) (tid : Nat) (s : DsTaskState) (k : String) :
    (lookupWorker (cancel_task_on_worker q tid s).1 k).isSome = (lookupWorker q k).isSome :=
  kpm_lookup_isSome (kpm_cancel q tid s) k

theorem lookup_modifyWorker_alarm (q : DsManager) (k : String)
    (h : (lookupWorker q k).isSome = true) :
    ∃ w', lookupWorker (modifyWorker q k (fun w => { w with fast_abort_alarm := true })) k
        = some w' ∧ w'.fast_abort_alarm = true := by
  rw [lookupWorker_modifyWorker_self q k (fun w => { w with fast_abort_alarm := true })
    (fun w => rfl)]
  cases hw : lookupWorker q k with
  | none => rw [hw] at h; simp at h
  | some w => exact ⟨_, rfl, rfl⟩

theorem lookup_modifyWorker_none (q : DsManager) (k : String)
    (f : DsWorkerInfo → DsWorkerInfo) (hf : ∀ w, (f w).hashkey = w.hashkey)
    (h : lookupWorker q k = none) : lookupWorker (modifyWorker q k f) k = none := by
  rw [lookupWorker_modifyWorker_self _ _ _ hf, h]
  rfl

end DS

namespace DS

/-- A projection preserved by every step of a fold is preserved by the fold. -/
theorem foldl_invariant {α β : Type} (proj : DsManager → β) (f : DsManager → α → DsManager)
    (l : List α) (hf : ∀ q x, proj (f q x) = proj q) (q : DsManager) :
    proj (l.foldl f q) = proj q := by
  induction l generalizing q with
  | nil => rfl
  | cons x xs ih => simp [List.foldl, ih, hf]

theorem map_keys_congr (l : List DsWorkerInfo) (g : DsWorkerInfo → DsWorkerInfo)
    (h : ∀ w ∈ l, (g w).current_files.map Prod.fst = w.current_files.map Prod.fst) :
    (l.map g).map (fun w => w.current_files.map Prod.fst)
      = l.map (fun w => w.current_files.map Prod.fst) := by
  induction l with
  | nil => rfl
  | cons w ws ih =>
    simp only [List.map]
    rw [h w (by simp), ih (fun y hy => h y (by simp [hy]))]

end DS

namespace DS

/-- C10: a well-formed `cache-update NAME SIZE TIME` naming a file absent from
the sending worker's cache index changes nothing (the handler only updates an
existing entry) and the message is reported processed; moreover the handler
never inserts a new cache entry for any worker: every worker's set of cached
names is unchanged. -/
theorem cache_update_absent_is_noop (q : DsManager) (wkey cachename : String)
    (size transfer_time : Int) :
    ((∀ w ∈ q.worker_table, w.hashkey = wkey →
        assocLookup w.current_files cachename = none) →
      handle_cache_update q wkey cachename size transfer_time = (q, DsMsgCode.processed)) ∧
    (handle_cache_update q wkey cachename size transfer_time).2 = DsMsgCode.processed ∧
    (handle_cache_update q wkey cachename size transfer_time).1.worker_table.map
        (fun w => w.current_files.map Prod.fst)
      = q.worker_table.map (fun w => w.current_files.map Prod.fst) := by
  refine ⟨?_, rfl, ?_⟩
  · intro habs
    unfold handle_cache_update
    refine Prod.ext ?_ rfl
    show modifyWorker q wkey _ = q
    unfold modifyWorker
    rw [listMapSelf q.worker_table]
    intro w hwmem
    by_cases hk : w.hashkey = wkey
    · simp [hk, habs w hwmem hk]
    · simp [hk]
  · unfold handle_cache_update
    show (modifyWorker q wkey _).worker_table.map _ = _
    unfold modifyWorker
    apply map_keys_congr
    intro w _
    by_cases hk : w.hashkey = wkey
    · simp only [hk, if_true, ite_true]
      cases hl : assocLookup w.current_files cachename with
      | none => rfl
      | some v =>
        simp only
        exact assocInsert_keys_of_mem _ _ _ _ hl
    · simp [hk]

end DS

namespace DS

/-! ### Concrete baseline states for witnesses and counterexamples -/

def stats0 : DsStats :=
  { workers_joined := 0, workers_removed := 0, workers_lost := 0, workers_fast_aborted := 0,
    workers_released := 0, workers_idled_out := 0, tasks_dispatched := 0, tasks_done := 0,
    tasks_failed := 0, tasks_exhausted_attempts := 0, time_workers_execute := 0,
    time_workers_execute_good := 0, time_send_good := 0, time_receive_good := 0,
    time_workers_execute_exhaustion := 0 }

def res0 : DsResource := { total := 0, smallest := 0, largest := 0, inuse := 0 }

def resources0 : DsResources :=
  { tag := 0, cores := res0, memory := res0, disk := res0, gpus := res0, workers := res0 }

/-- A worker record as created on admission (ds_worker_create: identity fields
hold the "unknown" placeholder until the greeting arrives, spec 4.5). -/
def worker0 : DsWorkerInfo :=
  { hashkey := "", hostname := "unknown", os := "unknown", arch := "unknown",
    version := "unknown", addrport := "", wtype := DsWorkerType.unknown, current_files := [],
    current_tasks := [], current_tasks_boxes := [], resources := resources0,
    fast_abort_alarm := false, draining := false, start_time := 0, last_msg_recv_time := 0,
    last_update_msg_time := 0, finished_tasks := 0, total_tasks_complete := 0,
    total_task_time := 0 }

def task0 : DsTask :=
  { taskid := 0, category := "default", priority := 0, state := DsTaskState.unknown,
    result := DsResult.unknown, exit_code := 0, try_count := 0, max_retries := 0,
    fast_abort_count := 0, exhausted_attempts := 0, resource_request := CategoryAllocation.first,
    input_files := { items := [], cursor := none }, output_files := { items := [], cursor := none },
    worker := none, time_when_commit_start := 0, time_when_commit_end := 0,
    time_when_retrieval := 0, time_when_done := 0, time_workers_execute_last := 0,
    time_workers_execute_all := 0, time_workers_execute_failure := 0, output := none }

def manager0 : DsManager :=
  { worker_table := [], tasks := [], ready_list := [], categories := [], blocklist := [],
    workers_with_available_results := [], stats := stats0, keepalive_interval := 120,
    keepalive_timeout := 900, link_poll_end := 0,
    current_max_worker := { cores := 0, memory := 0, disk := 0, gpus := 0 },
    monitor_mode := false, sent := [], soaked := 0 }

end DS

namespace DS

/-! ### C10 witness state -/

def c10q : DsManager :=
  { manager0 with worker_table :=
      [{ worker0 with
         hashkey := "W",
         current_files := [("G", { size := 1, transfer_time := 1 })] }] }

/-- C10 witness: the hypothesis (the named file is absent from the worker's
cache index) holds at a concrete state, and there the handler is a no-op
reporting the message processed. -/
theorem cache_update_absent_is_noop_witness :
    handle_cache_update c10q "W" "F" 5 7 = (c10q, DsMsgCode.processed) :=
  (cache_update_absent_is_noop c10q "W" "F" 5 7).1 (by decide)

/-! ### C8: the inuse recount property -/

/-- C8 (amended): after each operation that ends in the inuse recount - the
recount itself (which commit_task_to_worker, reap_task_from_worker and the end
of a worker resource report all invoke as their final bookkeeping step), a task
reap, and the end_of_resource_update report - the worker's inuse counters equal
the per-resource sums over its boxes whenever the worker has declared at least
one worker slot (workers.total >= 1); when workers.total < 1 the recount
instead zeroes the counters regardless of the boxes, so the unconditional
equality claimed in the spec fails there. -/
theorem inuse_recount_spec :
    (∀ q wkey w', lookupWorker (count_worker_resources q wkey) wkey = some w' →
      (1 ≤ w'.resources.workers.total → inuse_matches_boxes w') ∧
      (w'.resources.workers.total < 1 → inuse_zero w')) ∧
    (∀ q wkey tid st t w', lookupTask q tid = some t →
      lookupWorker (reap_task_from_worker q wkey tid st) wkey = some w' →
      (1 ≤ w'.resources.workers.total → inuse_matches_boxes w') ∧
      (w'.resources.workers.total < 1 → inuse_zero w')) ∧
    (∀ q wkey w', lookupWorker (handle_info_end_of_resource_update q wkey) wkey = some w' →
      (1 ≤ w'.resources.workers.total → inuse_matches_boxes w') ∧
      (w'.resources.workers.total < 1 → inuse_zero w')) := by
  refine ⟨fun q wkey w' h => count_inuse q wkey w' h,
    fun q wkey tid st t w' ht h => reap_inuse q wkey tid st t w' ht h,
    fun q wkey w' h => end_of_resource_update_inuse q wkey w' h⟩

/-- The C8 counterexample state: a worker holding one per-task resource box
while its reported worker count is still zero. -/
def c8q : DsManager :=
  { manager0 with worker_table :=
      [{ worker0 with
         hashkey := "W",
         current_tasks_boxes := [(7, { cores := 1, memory := 2, disk := 3, gpus := 4 })] }] }

/-- C8 counterexample: at a concrete worker whose reported worker total is 0
but which holds a box with 1 core, the recount leaves inuse at 0 while the box
sum is 1 - the claimed unconditional equality inuse = sum-of-boxes is false. -/
theorem count_recount_zeroes_despite_boxes :
    (lookupWorker (count_worker_resources c8q "W") "W").map
        (fun w => (w.resources.cores.inuse, boxesSum w.current_tasks_boxes (fun b => b.cores)))
      = some ((0 : Int), (1 : Int)) ∧ (0 : Int) ≠ 1 := by
  constructor
  · rfl
  · decide

/-- C8 witness for the amended theorem: a concrete recount on a worker with
one box and workers.total = 1. -/
def c8q' : DsManager :=
  { manager0 with worker_table :=
      [{ worker0 with
         hashkey := "W",
         current_tasks_boxes := [(7, { cores := 1, memory := 2, disk := 3, gpus := 4 })],
         resources := { resources0 with
           workers := { total := 1, smallest := 1, largest := 1, inuse := 0 } } }] }

/-- The exact worker record the recount produces on c8q'. -/
def c8w' : DsWorkerInfo :=
  { worker0 with
    hashkey := "W",
    current_tasks_boxes := [(7, { cores := 1, memory := 2, disk := 3, gpus := 4 })],
    resources := { resources0 with
      workers := { total := 1, smallest := 1, largest := 1, inuse := 0 },
      cores := { res0 with inuse := 1 },
      memory := { res0 with inuse := 2 },
      disk := { res0 with inuse := 3 },
      gpus := { res0 with inuse := 4 } } }

theorem inuse_recount_spec_witness :
    lookupWorker (count_worker_resources c8q' "W") "W" = some c8w' ∧
    1 ≤ c8w'.resources.workers.total ∧ inuse_matches_boxes c8w' :=
  ⟨by decide, by decide, (inuse_recount_spec.1 c8q' "W" c8w' (by decide)).1 (by decide)⟩

end DS

namespace DS

/-! ### C7: keepalive knobs -/

theorem ask_update_one_no_interval (q : DsManager) (cur : Nat) (k : String)
    (h : q.keepalive_interval ≤ 0) : ask_update_one q cur k = q := by
  unfold ask_update_one
  cases hl : lookupWorker q k with
  | none => rfl
  | some w =>
    simp only [hl]
    rw [if_neg (by omega)]

theorem foldl_ask_no_interval (ks : List String) (cur : Nat) (q : DsManager)
    (h : q.keepalive_interval ≤ 0) :
    ks.foldl (fun q k => ask_update_one q cur k) q = q := by
  induction ks with
  | nil => rfl
  | cons k ks ih => simp only [List.foldl, ask_update_one_no_interval q cur k h, ih]

/-- C7 (amended): it is the keepalive interval, not the keepalive timeout,
that disables the health pass: with keepalive_interval <= 0 the pass changes
nothing for any worker (no `check` sent, nobody culled).  A keepalive timeout
of 0 does not disable culling - on the contrary, with a positive interval the
per-worker pass immediately removes every worker whose identity is still the
"unknown" placeholder, since the elapsed-time test (elapsed/1000000 >= 0) is
always true. -/
theorem keepalive_zero_semantics :
    (∀ (q : DsManager) (cur : Nat), q.keepalive_interval ≤ 0 →
      ask_for_workers_updates q cur = q) ∧
    (∀ (q : DsManager) (cur : Nat) (wkey : String) (w : DsWorkerInfo),
      q.keepalive_timeout = 0 → 0 < q.keepalive_interval →
      lookupWorker q wkey = some w → w.hostname = "unknown" →
      lookupWorker (ask_update_one q cur wkey) wkey = none) := by
  constructor
  · intro q cur h
    unfold ask_for_workers_updates
    exact foldl_ask_no_interval _ cur q h
  · intro q cur wkey w ht hi hl hu
    unfold ask_update_one
    rw [hl]
    simp only [hu, if_pos hi, if_true, ht, ge_iff_le]
    rw [if_pos (Int.natCast_nonneg _)]
    unfold handle_worker_failure
    exact remove_worker_lookup_none _ _ _

/-- The C7 counterexample state: keepalive timeout 0, default interval, one
worker that has not yet sent its greeting. -/
def c7q : DsManager :=
  { manager0 with
    keepalive_interval := 120,
    keepalive_timeout := 0,
    worker_table := [{ worker0 with hashkey := "U", start_time := 5 }] }

/-- C7 counterexample: with keepalive timeout 0 the claim says no worker is
removed for keepalive inactivity; at this concrete state the health pass
removes the unknown worker at once. -/
theorem keepalive_timeout_zero_culls :
    lookupWorker (ask_for_workers_updates c7q 5) "U" = none := by decide

def c7q' : DsManager := { manager0 with keepalive_interval := 0, keepalive_timeout := 0 }

theorem keepalive_zero_semantics_witness :
    ask_for_workers_updates c7q' 5 = c7q' ∧
    lookupWorker (ask_update_one c7q 7 "U") "U" = none :=
  ⟨keepalive_zero_semantics.1 c7q' 5 (by decide),
   keepalive_zero_semantics.2 c7q 7 "U" { worker0 with hashkey := "U", start_time := 5 }
     (by decide) (by decide) (by decide) (by decide)⟩

/-! ### C9: wait(timeout = 0) -/

theorem wait_loop_steps_ge (env : WaitEnv) (s : Option Nat) :
    ∀ (fuel k : Nat), k ≤ ds_wait_loop_steps env s fuel k := by
  intro fuel
  induction fuel with
  | zero => intro k; simp [ds_wait_loop_steps]
  | succ n ih =>
    intro k
    unfold ds_wait_loop_steps
    split
    · split
      · omega
      · exact le_trans (Nat.le_succ k) (ih (k + 1))
    · exact le_refl k

theorem wait_loop_steps_pos (env : WaitEnv) (s : Option Nat) (fuel k : Nat)
    (h : match s with | none => True | some st => env.clock (k + 1) < st)
    (hf : 1 ≤ fuel) : k + 1 ≤ ds_wait_loop_steps env s fuel k := by
  cases fuel with
  | zero => omega
  | succ n =>
    unfold ds_wait_loop_steps
    cases s with
    | none =>
      rw [if_pos rfl]
      split
      · exact le_refl (k + 1)
      · exact wait_loop_steps_ge env none n (k + 1)
    | some st =>
      rw [if_pos (decide_eq_true h)]
      split
      · exact le_refl (k + 1)
      · exact wait_loop_steps_ge env (some st) n (k + 1)

/-- C9 (amended): a wait with timeout 0 is converted to a one-second timeout
(ds_manager.c:3886-3892) and the loop body is executed at least once -
provided the clock has not already advanced past the deadline between the
stoptime computation and the first loop test - but nothing limits the wait to
exactly one iteration: the loop repeats until the deadline passes or a break
path fires. -/
theorem wait_zero_at_least_one_iteration (env : WaitEnv) (fuel : Nat)
    (hfuel : 1 ≤ fuel) (hclk : env.clock 1 ≤ env.clock 0) :
    1 ≤ ds_wait_for_tag_iterations 0 env fuel := by
  unfold ds_wait_for_tag_iterations
  have hte : ds_wait_effective_timeout 0 = 1 := by decide
  rw [hte]
  have hne : ¬ ((1 : Int) = DS_WAITFORTASK) := by decide
  simp only [hne, if_false, ite_false, Int.toNat_one]
  exact wait_loop_steps_pos env (some (env.clock 0 + 1)) fuel 0
    (show env.clock 1 < env.clock 0 + 1 by omega) hfuel

/-- The C9 counterexample environment: the clock does not advance within the
second, the first iteration takes a continue path, the second breaks. -/
def c9env : WaitEnv := { clock := fun _ => 100, breaks := fun k => k == 1 }

/-- C9 counterexample: with timeout 0 this concrete run of the wait loop
executes two iterations, refuting "exactly one iteration". -/
theorem wait_zero_two_iterations : ds_wait_for_tag_iterations 0 c9env 10 = 2 := by decide

theorem wait_zero_at_least_one_iteration_witness :
    1 ≤ 10 ∧ c9env.clock 1 ≤ c9env.clock 0 ∧ 1 ≤ ds_wait_for_tag_iterations 0 c9env 10 :=
  ⟨by decide, by decide, wait_zero_at_least_one_iteration c9env 10 (by decide) (by decide)⟩

end DS

namespace DS

/-! ### C6: the initial greeting and protocol mismatch -/

/-- C6: on a `dataswarm` greeting whose protocol version differs from
DS_PROTOCOL_VERSION, handle_dataswarm records no identity (the worker table is
untouched, so hostname/os/arch/version keep their placeholders), adds the host
recorded for the worker (still the placeholder) to the blocklist with an
indefinite block, reports the message as a failure, and the dispatcher then
drops the worker without counting a join; only on a matching version is the
identity recorded, the worker marked type WORKER, and the join counted. -/
theorem protocol_mismatch_blocks_and_drops (q : DsManager) (wkey : String) (m : DataswarmMsg)
    (now : Nat) (w : DsWorkerInfo) (hw : lookupWorker q wkey = some w) :
    (m.worker_protocol ≠ DS_PROTOCOL_VERSION →
      (handle_dataswarm q wkey m).2 = DsMsgCode.failure ∧
      (handle_dataswarm q wkey m).1.worker_table = q.worker_table ∧
      assocLookup (handle_dataswarm q wkey m).1.blocklist w.hostname = some (-1) ∧
      (handle_dataswarm q wkey m).1.stats = q.stats ∧
      lookupWorker (handle_worker_dataswarm q wkey m now) wkey = none ∧
      (handle_worker_dataswarm q wkey m now).stats.workers_joined
        = q.stats.workers_joined) ∧
    (m.worker_protocol = DS_PROTOCOL_VERSION →
      ∃ w', lookupWorker (handle_dataswarm q wkey m).1 wkey = some w' ∧
        w'.hostname = m.hostname ∧ w'.os = m.os ∧ w'.arch = m.arch ∧
        w'.version = m.version ∧ w'.wtype = DsWorkerType.worker ∧
        (handle_dataswarm q wkey m).1.stats.workers_joined = q.stats.workers_joined + 1 ∧
        (handle_dataswarm q wkey m).2 = DsMsgCode.processed) := by
  constructor
  · intro hv
    refine ⟨?_, ?_, ?_, ?_, ?_, ?_⟩
    · unfold handle_dataswarm
      simp only [hw]
      rw [if_pos hv]
    · unfold handle_dataswarm
      simp only [hw]
      rw [if_pos hv]
      rfl
    · unfold handle_dataswarm ds_block_host ds_blocklist_block
      simp only [hw]
      rw [if_pos hv]
      exact assocLookup_insert_self _ _ _
    · unfold handle_dataswarm
      simp only [hw]
      rw [if_pos hv]
      rfl
    · unfold handle_worker_dataswarm handle_dataswarm
      simp only [lookupWorker_modifyWorker_self q wkey
        (fun w => { w with last_msg_recv_time := now }) (fun w => rfl), hw, Option.map_some']
      rw [if_pos hv]
      exact remove_worker_lookup_none _ wkey now
    · unfold handle_worker_dataswarm handle_dataswarm
      simp only [lookupWorker_modifyWorker_self q wkey
        (fun w => { w with last_msg_recv_time := now }) (fun w => rfl), hw, Option.map_some']
      rw [if_pos hv]
      rw [remove_worker_workers_joined]
      rfl
  · intro hv
    unfold handle_dataswarm
    simp only [hw]
    rw [if_neg (fun hne => hne hv)]
    refine ⟨{ w with hostname := m.hostname, os := m.os, arch := m.arch,
                     version := m.version, wtype := DsWorkerType.worker },
            ?_, rfl, rfl, rfl, rfl, rfl, rfl, rfl⟩
    show lookupWorker (modifyWorker q wkey _) wkey = _
    rw [lookupWorker_modifyWorker_self q wkey
      (fun w => { w with hostname := m.hostname, os := m.os, arch := m.arch,
                         version := m.version, wtype := DsWorkerType.worker })
      (fun w => rfl), hw]
    rfl

def c6q : DsManager := { manager0 with worker_table := [{ worker0 with hashkey := "X" }] }

def c6m : DataswarmMsg :=
  { worker_protocol := DS_PROTOCOL_VERSION + 1, hostname := "h1", os := "linux",
    arch := "x86_64", version := "7.4.0" }

theorem protocol_mismatch_blocks_and_drops_witness :
    (handle_dataswarm c6q "X" c6m).2 = DsMsgCode.failure ∧
    assocLookup (handle_dataswarm c6q "X" c6m).1.blocklist "unknown" = some (-1) ∧
    lookupWorker (handle_worker_dataswarm c6q "X" c6m 50) "X" = none := by
  have h := (protocol_mismatch_blocks_and_drops c6q "X" c6m 50
    ({ worker0 with hashkey := "X" }) (by decide)).1 (by decide)
  exact ⟨h.1, h.2.2.1, h.2.2.2.2.1⟩

end DS

namespace DS

/-! ### C1: invalidation misses tasks that reference the file only as output -/

def c1fileF : DsFile := { cached_name := "F", remote_name := "f", flags := 0 }

def c1fileG : DsFile := { cached_name := "G", remote_name := "g", flags := DS_CACHE }

/-- A running task assigned to worker X whose output list (and only its output
list) references cached file F.  Both file-list cursors are null, exactly as the
source leaves them: a fresh list has a null cursor, and every loop that does
iterate a task's file lists (start_one_task's transfer loops, the deletion
sweeps) runs them to exhaustion, which also nulls the cursor. -/
def c1task : DsTask :=
  { task0 with
    taskid := 7,
    state := DsTaskState.running,
    worker := some "X",
    input_files := { items := [c1fileG], cursor := none },
    output_files := { items := [c1fileF], cursor := none } }

def c1q : DsManager :=
  { manager0 with
    worker_table := [{ worker0 with
      hashkey := "X",
      hostname := "x.host",
      current_files := [("F", { size := 4, transfer_time := 1 })],
      current_tasks := [7] }],
    tasks := [(7, c1task)] }

/-- C1: the invalidation walk does run `list_first_item` on each assigned
task's input list before scanning it (ds_manager.c:3039), but scans the output
list (ds_manager.c:3048-3053) with no preceding `list_first_item`, so that loop
starts from the list's resident cursor - which is null for any list not
currently mid-iteration - and yields nothing.  At the concrete state c1q,
worker X holds cached file F and its running task 7 lists F among its output
files, yet after `ds_invalidate_cached_file_internal c1q "F"` the task is still
RUNNING and still assigned to X (never cancelled, never requeued READY), even
though F was indeed unlinked from X's cache index; the spec requires the task
to be cancelled and requeued READY. -/
theorem invalidate_misses_output_referencing_task :
    c1fileF ∈ c1task.output_files.items ∧ c1fileF.cached_name = "F" ∧
    (lookupTask (ds_invalidate_cached_file_internal c1q "F") 7).map
        (fun t => (t.state, t.worker)) = some (DsTaskState.running, some "X") ∧
    (lookupWorker (ds_invalidate_cached_file_internal c1q "F") "X").map
        (fun w => (w.current_tasks, assocLookup w.current_files "F"))
      = some ([7], none) ∧
    (ds_invalidate_cached_file_internal c1q "F").sent = [("X", "unlink F")] ∧
    (ds_invalidate_cached_file_internal c1q "F").ready_list = [] := by
  decide

end DS

namespace DS

/-! ### C3: FORSAKEN requeues READY, but the try was already charged at dispatch -/

/-- C3 (amended): a `result` line with STATUS = FORSAKEN for a task assigned to
the sending worker reaps the task and requeues it READY, and the forsaken
branch itself does not touch the try count (ds_manager.c:1420-1428 contains no
compensation) - but commit_task_to_worker charged `t->try_count++` when the
task was dispatched (ds_manager.c:2660), and nothing restores it, so after the
requeue the try count is the pre-dispatch value plus one, not the pre-dispatch
value as the spec claims. -/
theorem forsaken_requeues_but_try_stays_charged (q : DsManager) (wkey : String)
    (m : ResultMsg) (payload : List Nat) (now : Nat) (w : DsWorkerInfo) (t : DsTask)
    (hw : lookupWorker q wkey = some w) (hmem : m.taskid ∈ w.current_tasks)
    (ht : lookupTask q m.taskid = some t) (hst : m.task_status = DsResult.forsaken) :
    ((get_result q wkey m payload now).2 = DsResultCode.success ∧
     ∃ t', assocLookup (get_result q wkey m payload now).1.tasks m.taskid = some t' ∧
       t'.state = DsTaskState.ready ∧ t'.try_count = t.try_count) ∧
    (∀ (q₂ : DsManager) (tid : Nat) (env : CommitEnv) (t₂ : DsTask),
      lookupTask q₂ tid = some t₂ → env.input_result = DsResultCode.success →
      env.send_ok = true →
      ∃ t₂', assocLookup (commit_task_to_worker q₂ wkey tid env).tasks tid = some t₂' ∧
        t₂'.try_count = t₂.try_count + 1 ∧ t₂'.state = DsTaskState.running) := by
  constructor
  · unfold get_result
    simp only [hw]
    rw [if_neg (not_not_intro hmem)]
    simp only [ht]
    rw [if_pos hst]
    refine ⟨rfl, ?_⟩
    rw [reap_ready_tasks_lookup _ wkey m.taskid
      ({ t with input_files := t.input_files.exhaust }) ?_]
    · exact ⟨_, rfl, rfl, by simp [ds_task_clean]⟩
    · simp only [lookupTask] at ht ⊢
      simp [ht]
  · intro q₂ tid env t₂ ht₂ hin hsend
    have hfoldin : ∀ (items : List DsFile) (q' : DsManager),
        (items.foldl (fun q tf =>
          ds_manager_send q wkey ("infile " ++ tf.cached_name ++ " " ++ tf.remote_name)) q').tasks
          = q'.tasks :=
      fun items q' => foldl_invariant (fun q => q.tasks)
        (fun q tf => ds_manager_send q wkey ("infile " ++ tf.cached_name ++ " " ++ tf.remote_name))
        items (fun _ _ => rfl) q'
    have hfoldout : ∀ (items : List DsFile) (q' : DsManager),
        (items.foldl (fun q tf =>
          ds_manager_send q wkey ("outfile " ++ tf.cached_name ++ " " ++ tf.remote_name)) q').tasks
          = q'.tasks :=
      fun items q' => foldl_invariant (fun q => q.tasks)
        (fun q tf => ds_manager_send q wkey ("outfile " ++ tf.cached_name ++ " " ++ tf.remote_name))
        items (fun _ _ => rfl) q'
    have h1 : lookupTask (modifyTask q₂ tid
        (fun t => { t with time_when_commit_start := env.commit_start })) tid
        = some { t₂ with time_when_commit_start := env.commit_start } := by
      rw [lookupTask_modifyTask_self, ht₂]
      rfl
    unfold commit_task_to_worker start_one_task
    simp only [h1]
    rw [if_neg (not_not_intro hin), if_pos hsend]
    rw [if_neg (show ¬ DsResultCode.success ≠ DsResultCode.success from not_not_intro rfl)]
    rw [count_worker_resources_tasks]
    simp only [lookupTask] at ht₂
    simp only [assocLookup_modifyTask_self,
      change_mid_tasks_lookup _ tid DsTaskState.running (by decide) (by decide) (by decide),
      modifyWorker_tasks, send_tasks, hfoldin, hfoldout, ht₂, Option.map_some]
    exact ⟨_, rfl, rfl, rfl⟩

def c3task : DsTask :=
  { task0 with
    taskid := 5,
    state := DsTaskState.ready }

def c3q : DsManager :=
  { manager0 with
    worker_table := [{ worker0 with hashkey := "X" }],
    tasks := [(5, c3task)],
    ready_list := [5] }

def c3env : CommitEnv :=
  { limits := { cores := 1, memory := 1, disk := 1, gpus := 0 },
    commit_start := 10, commit_end := 20,
    input_result := DsResultCode.success, send_ok := true }

def c3m : ResultMsg :=
  { task_status := DsResult.forsaken, exit_status := 0, output_length := 0,
    execution_time := 0, taskid := 5 }

/-- C3 counterexample: task 5 has try count 0 before dispatch; it is committed
to worker X (which charges the try), the worker forsakes it, and after the
FORSAKEN requeue the task sits READY with try count 1, not the pre-dispatch 0
the spec promises. -/
theorem forsaken_try_not_restored :
    (lookupTask c3q 5).map (fun t => t.try_count) = some 0 ∧
    (lookupTask (get_result (commit_task_to_worker c3q "X" 5 c3env) "X" c3m [] 100).1 5).map
        (fun t => (t.state, t.try_count)) = some (DsTaskState.ready, 1) ∧
    (1 : Nat) ≠ 0 := by
  decide

def c3worker' : DsWorkerInfo :=
  { worker0 with
    hashkey := "X",
    current_tasks := [5] }

def c3task' : DsTask :=
  { task0 with
    taskid := 5,
    state := DsTaskState.running,
    worker := some "X",
    try_count := 1 }

def c3q' : DsManager :=
  { manager0 with
    worker_table := [c3worker'],
    tasks := [(5, c3task')] }

/-- C3 witness: the amended theorem applied at a concrete state - a running
task with one charged try on worker X is forsaken; it comes back READY still
carrying try count 1. -/
theorem forsaken_requeues_but_try_stays_charged_witness :
    (get_result c3q' "X" c3m [] 100).2 = DsResultCode.success ∧
    ∃ t', assocLookup (get_result c3q' "X" c3m [] 100).1.tasks 5 = some t' ∧
      t'.state = DsTaskState.ready ∧ t'.try_count = 1 := by
  have h := (forsaken_requeues_but_try_stays_charged c3q' "X" c3m [] 100
    c3worker' c3task' (by decide) (by decide) (by decide) rfl).1
  exact ⟨h.1, h.2⟩

end DS

namespace DS

/-! ### C2: fast abort - a repeat strike never blocks the worker -/

/-- The trichotomy of the fast-abort check, for any state and already-fetched
category: tripping on a regular worker always cancels and requeues the task
with its strike count bumped; a repeat strike then changes nothing else; a
first strike blocks and removes the worker when its alarm was already set and
merely sets the alarm otherwise. -/
theorem abort_check_trichotomy (q : DsManager) (current : Nat) (cd : Rat) (tid : Nat)
    (t : DsTask) (c : Category) (wkey : String) (w : DsWorkerInfo)
    (ht : lookupTask q tid = some t)
    (hfa : c.fast_abort > 0)
    (havg : 1 ≤ c.average_task_time)
    (hrt : ((current - t.time_when_commit_start : Nat) : Rat)
             ≥ (c.average_task_time : Rat) * (c.fast_abort + (t.fast_abort_count : Rat)))
    (hwref : t.worker = some wkey)
    (hw : lookupWorker q wkey = some w)
    (hwt : w.wtype = DsWorkerType.worker) :
    (1 ≤ t.fast_abort_count →
      (abort_slow_check q current cd tid t c).blocklist = q.blocklist ∧
      (lookupWorker (abort_slow_check q current cd tid t c) wkey).isSome = true ∧
      assocLookup (abort_slow_check q current cd tid t c).tasks tid =
        some { ds_task_clean
            { t with
              input_files := t.input_files.exhaust
              output_files := t.output_files.exhaust
              worker := none
              state := DsTaskState.ready } false
          with fast_abort_count := t.fast_abort_count + 1 }) ∧
    (t.fast_abort_count = 0 → w.fast_abort_alarm = true →
      assocLookup (abort_slow_check q current cd tid t c).blocklist w.hostname
        = some blocklist_slow_workers_timeout ∧
      lookupWorker (abort_slow_check q current cd tid t c) wkey = none) ∧
    (t.fast_abort_count = 0 → w.fast_abort_alarm = false →
      (abort_slow_check q current cd tid t c).blocklist = q.blocklist ∧
      ∃ w', lookupWorker (abort_slow_check q current cd tid t c) wkey = some w' ∧
        w'.fast_abort_alarm = true) := by
  have h1 : (c.fast_abort = 0) = False := eq_false (ne_of_gt hfa)
  have h2 : (c.average_task_time < 1) = False := eq_false (not_lt.mpr havg)
  have h3 : (c.fast_abort > 0) = True := eq_true hfa
  have h4 : (((current - t.time_when_commit_start : Nat) : Rat)
      ≥ (c.average_task_time : Rat) * (c.fast_abort + (t.fast_abort_count : Rat))) = True :=
    eq_true hrt
  have h5 : (w.wtype = DsWorkerType.worker) = True := eq_true hwt
  rcases hcan : cancel_task_on_worker q tid DsTaskState.ready with ⟨q1, b1⟩
  have hq1 : q1 = (cancel_task_on_worker q tid DsTaskState.ready).1 := by rw [hcan]
  refine ⟨?_, ?_, ?_⟩
  · intro hcount
    have hcnt : (t.fast_abort_count + 1 > 1) = True := eq_true (by omega)
    unfold abort_slow_check
    simp only [ht, hwref, hw, h1, h2, h3, h4, h5, hcan, hcnt, if_true, if_false]
    refine ⟨?_, ?_, ?_⟩
    · rw [modifyTask_blocklist, hq1, cancel_blocklist]
    · have hwt1 : lookupWorker (modifyTask q1 tid
          (fun t => { t with fast_abort_count := t.fast_abort_count + 1 })) wkey
          = lookupWorker q1 wkey := by
        simp [lookupWorker, modifyTask]
      rw [hwt1, hq1, cancel_lookupWorker_isSome, hw]
      rfl
    · rw [assocLookup_modifyTask_self, hq1, cancel_ready_tasks_lookup q tid t wkey ht hwref]
      simp [ds_task_clean]
  · intro hcount halarm
    have hcnt : (t.fast_abort_count + 1 > 1) = False := eq_false (by omega)
    have hb : (true = true) = True := eq_true rfl
    unfold abort_slow_check ds_block_host_with_timeout ds_blocklist_block
    simp only [ht, hwref, hw, h1, h2, h3, h4, h5, hcan, hcnt, halarm, hb, if_true, if_false]
    constructor
    · rw [modifyWorker_blocklist]
      show assocLookup (remove_worker _ wkey current).blocklist w.hostname = _
      rw [remove_worker_blocklist]
      show assocLookup (assocInsert _ w.hostname blocklist_slow_workers_timeout) w.hostname = _
      exact assocLookup_insert_self _ _ _
    · refine lookup_modifyWorker_none _ wkey _ (fun w => rfl) ?_
      show lookupWorker (remove_worker _ wkey current) wkey = none
      exact remove_worker_lookup_none _ wkey current
  · intro hcount halarm
    have hcnt : (t.fast_abort_count + 1 > 1) = False := eq_false (by omega)
    have hb : (false = true) = False := eq_false (by simp)
    unfold abort_slow_check
    simp only [ht, hwref, hw, h1, h2, h3, h4, h5, hcan, hcnt, halarm, hb, if_true, if_false]
    constructor
    · rw [modifyWorker_blocklist, modifyTask_blocklist, hq1, cancel_blocklist]
    · refine lookup_modifyWorker_alarm _ wkey ?_
      have hwt1 : lookupWorker (modifyTask q1 tid
          (fun t => { t with fast_abort_count := t.fast_abort_count + 1 })) wkey
          = lookupWorker q1 wkey := by
        simp [lookupWorker, modifyTask]
      rw [hwt1, hq1, cancel_lookupWorker_isSome, hw]
      rfl

/-- C2 (amended): when fast abort trips on running task t (runtime since
commit at least the category average times (multiplier + strike count)) and
the task sits on a regular worker, the task is always cancelled and requeued
READY with its strike count incremented - and then, because the source tests
the strike count after the `t->fast_abort_count++` (ds_manager.c:2898-2903), a
task that already had a strike takes the `continue` and can never block or
remove any worker, whatever the worker's alarm state; only a task on its first
strike reaches the alarm test, blocking and removing the worker when the alarm
was already set by a previous (different) task and merely setting the alarm
otherwise. -/
theorem fast_abort_strike_trichotomy (q : DsManager) (current : Nat) (cd : Rat) (tid : Nat)
    (t : DsTask) (c : Category) (wkey : String) (w : DsWorkerInfo)
    (ht : lookupTask q tid = some t)
    (hc : assocLookup q.categories t.category = some c)
    (hfa : c.fast_abort > 0)
    (havg : 1 ≤ c.average_task_time)
    (hrt : ((current - t.time_when_commit_start : Nat) : Rat)
             ≥ (c.average_task_time : Rat) * (c.fast_abort + (t.fast_abort_count : Rat)))
    (hwref : t.worker = some wkey)
    (hw : lookupWorker q wkey = some w)
    (hwt : w.wtype = DsWorkerType.worker) :
    (1 ≤ t.fast_abort_count →
      (abort_slow_body q current cd tid).blocklist = q.blocklist ∧
      (lookupWorker (abort_slow_body q current cd tid) wkey).isSome = true ∧
      assocLookup (abort_slow_body q current cd tid).tasks tid =
        some { ds_task_clean
            { t with
              input_files := t.input_files.exhaust
              output_files := t.output_files.exhaust
              worker := none
              state := DsTaskState.ready } false
          with fast_abort_count := t.fast_abort_count + 1 }) ∧
    (t.fast_abort_count = 0 → w.fast_abort_alarm = true →
      assocLookup (abort_slow_body q current cd tid).blocklist w.hostname
        = some blocklist_slow_workers_timeout ∧
      lookupWorker (abort_slow_body q current cd tid) wkey = none) ∧
    (t.fast_abort_count = 0 → w.fast_abort_alarm = false →
      (abort_slow_body q current cd tid).blocklist = q.blocklist ∧
      ∃ w', lookupWorker (abort_slow_body q current cd tid) wkey = some w' ∧
        w'.fast_abort_alarm = true) := by
  unfold abort_slow_body ds_category_lookup_or_create category_lookup_or_create
  by_cases hocs : c.ds_stats = none
  · simp only [ht, hc, hocs, eq_self_iff_true, if_true]
    exact abort_check_trichotomy _ current cd tid t _ wkey w ht hfa havg hrt hwref hw hwt
  · simp only [ht, hc, eq_false hocs, if_false]
    exact abort_check_trichotomy q current cd tid t c wkey w ht hfa havg hrt hwref hw hwt

end DS

namespace DS

def c2stats : DsStatsCat :=
  { tasks_done := 10, tasks_failed := 0, time_workers_execute_good := 10000000,
    time_send_good := 0, time_receive_good := 0 }

def c2cat : Category :=
  { fast_abort := 3, average_task_time := 0, ds_stats := some c2stats }

def c2task : DsTask :=
  { task0 with
    taskid := 9,
    category := "default",
    state := DsTaskState.running,
    worker := some "A",
    fast_abort_count := 1,
    time_when_commit_start := 0 }

def c2worker : DsWorkerInfo :=
  { worker0 with
    hashkey := "A",
    hostname := "a.host",
    wtype := DsWorkerType.worker,
    fast_abort_alarm := true,
    current_tasks := [9] }

def c2q : DsManager :=
  { manager0 with
    worker_table := [c2worker],
    tasks := [(9, c2task)],
    categories := [("default", c2cat)] }

def c2cat' : Category :=
  { c2cat with average_task_time := 1000000 }

def c2q' : DsManager :=
  { manager0 with
    worker_table := [c2worker],
    tasks := [(9, c2task)],
    categories := [("default", c2cat')] }

/-- C2 counterexample: task 9 already carries one strike
(fast_abort_count = 1) and its worker A already has its fast-abort alarm set;
the category average is 1 s and the task has run 5 s, so fast abort trips
again.  The spec says worker A is now blocked and removed, but the per-task
fast-abort step leaves A connected with an unchanged (empty) blocklist - the
task is merely requeued READY with strike count 2 - because the source checks
`fast_abort_count > 1` after the increment and skips the whole alarm/block
step for any repeat strike. -/
theorem repeat_strike_worker_not_blocked :
    c2task.fast_abort_count = 1 ∧ c2worker.fast_abort_alarm = true ∧
    (lookupWorker (abort_slow_body c2q' 5000000 0 9) "A").isSome = true ∧
    (abort_slow_body c2q' 5000000 0 9).blocklist = [] ∧
    (assocLookup (abort_slow_body c2q' 5000000 0 9).tasks 9).map
        (fun t => (t.state, t.fast_abort_count)) = some (DsTaskState.ready, 2) := by
  have ht : lookupTask c2q' 9 = some c2task := rfl
  have hc : assocLookup c2q'.categories c2task.category = some c2cat' := rfl
  have hwref : c2task.worker = some "A" := rfl
  have hw : lookupWorker c2q' "A" = some c2worker := rfl
  have h1 : (c2cat'.fast_abort = 0) = False := eq_false (by norm_num [c2cat', c2cat])
  have h2 : (c2cat'.average_task_time < 1) = False := eq_false (by decide)
  have h3 : (c2cat'.fast_abort > 0) = True := eq_true (by norm_num [c2cat', c2cat])
  have h4 : (((5000000 - c2task.time_when_commit_start : Nat) : Rat)
      ≥ (c2cat'.average_task_time : Rat) * (c2cat'.fast_abort + (c2task.fast_abort_count : Rat)))
      = True := eq_true (by norm_num [c2task, task0, c2cat', c2cat])
  have h5 : (c2worker.wtype = DsWorkerType.worker) = True := eq_true rfl
  have hcnt : (c2task.fast_abort_count + 1 > 1) = True := eq_true (by decide)
  have hstats : (c2cat'.ds_stats = none) = False := eq_false (by decide)
  refine ⟨rfl, rfl, ?_, ?_, ?_⟩
  · unfold abort_slow_body ds_category_lookup_or_create category_lookup_or_create
      abort_slow_check
    simp only [ht, hc, hstats, hwref, hw, h1, h2, h3, h4, h5, hcnt, if_true, if_false]
    decide
  · unfold abort_slow_body ds_category_lookup_or_create category_lookup_or_create
      abort_slow_check
    simp only [ht, hc, hstats, hwref, hw, h1, h2, h3, h4, h5, hcnt, if_true, if_false]
    decide
  · unfold abort_slow_body ds_category_lookup_or_create category_lookup_or_create
      abort_slow_check
    simp only [ht, hc, hstats, hwref, hw, h1, h2, h3, h4, h5, hcnt, if_true, if_false]
    decide

/-- C2 witness: the amended theorem applied at a concrete repeat-strike state -
the blocklist is untouched and the worker survives. -/
theorem fast_abort_strike_trichotomy_witness :
    (abort_slow_body c2q' 5000000 0 9).blocklist = c2q'.blocklist ∧
    (lookupWorker (abort_slow_body c2q' 5000000 0 9) "A").isSome = true := by
  have h := (fast_abort_strike_trichotomy c2q' 5000000 0 9 c2task c2cat' "A" c2worker
    rfl rfl (by norm_num [c2cat', c2cat]) (by decide)
    (by norm_num [c2task, task0, c2cat', c2cat]) rfl rfl rfl).1 (by decide)
  exact ⟨h.1, h.2.1⟩

end DS

namespace DS

/-! ### C4: resource-exhaustion resubmission goes to the head of the ready list -/

theorem category_lookup_tasks (q : DsManager) (name : String) :
    (ds_category_lookup_or_create q name).1.tasks = q.tasks := by
  unfold ds_category_lookup_or_create category_lookup_or_create
  cases h : assocLookup q.categories name with
  | none => simp [h]
  | some c =>
    simp only [h]
    split <;> rfl

theorem category_lookup_ready (q : DsManager) (name : String) :
    (ds_category_lookup_or_create q name).1.ready_list = q.ready_list := by
  unfold ds_category_lookup_or_create category_lookup_or_create
  cases h : assocLookup q.categories name with
  | none => simp [h]
  | some c =>
    simp only [h]
    split <;> rfl

theorem delete_uncacheable_ready_list (q : DsManager) (wkey : String) (tid : Nat) :
    (delete_uncacheable_files q wkey tid).ready_list = q.ready_list := by
  unfold delete_uncacheable_files
  cases ht : lookupTask q tid with
  | none => rfl
  | some t =>
    simp only [ht]
    rcases hd : delete_worker_files q wkey t.input_files DS_CACHE with ⟨q1, ins⟩
    simp only [hd]
    have hr1 : q1.ready_list = q.ready_list := by
      have := delete_worker_files_ready_list q wkey t.input_files DS_CACHE
      rw [hd] at this
      exact this
    cases ht2 : lookupTask (modifyTask q1 tid (fun t => { t with input_files := ins })) tid with
    | none => simp [ht2, hr1]
    | some t2 =>
      simp only [ht2]
      rcases hd2 : delete_worker_files (modifyTask q1 tid (fun t => { t with input_files := ins }))
          wkey t2.output_files DS_CACHE with ⟨q2, outs⟩
      simp only [hd2]
      have hr2 : q2.ready_list = q1.ready_list := by
        have := delete_worker_files_ready_list
          (modifyTask q1 tid (fun t => { t with input_files := ins })) wkey t2.output_files DS_CACHE
        rw [hd2] at this
        simpa using this
      simp [hr2, hr1]

theorem delete_uncacheable_tasks_lookup (q : DsManager) (wkey : String) (tid : Nat) (t : DsTask)
    (ht : lookupTask q tid = some t) :
    assocLookup (delete_uncacheable_files q wkey tid).tasks tid =
      some { t with
        input_files := t.input_files.exhaust
        output_files := t.output_files.exhaust } := by
  unfold delete_uncacheable_files
  simp only [ht]
  rcases hd : delete_worker_files q wkey t.input_files DS_CACHE with ⟨q1, ins⟩
  simp only [hd]
  have hins : ins = t.input_files.exhaust := by
    have := delete_worker_files_snd q wkey t.input_files DS_CACHE
    rw [hd] at this
    exact this
  have htq1 : assocLookup q1.tasks tid = some t := by
    have := delete_worker_files_tasks q wkey t.input_files DS_CACHE
    rw [hd] at this
    simp only [lookupTask] at ht
    rw [this, ht]
  have ht2 : lookupTask (modifyTask q1 tid (fun t => { t with input_files := ins })) tid
      = some { t with input_files := t.input_files.exhaust } := by
    rw [lookupTask_modifyTask_self]
    show (assocLookup q1.tasks tid).map _ = _
    rw [htq1, hins]
    rfl
  simp only [ht2]
  rcases hd2 : delete_worker_files (modifyTask q1 tid (fun t => { t with input_files := ins }))
      wkey ({ t with input_files := t.input_files.exhaust } : DsTask).output_files DS_CACHE
    with ⟨q2, outs⟩
  simp only [hd2]
  have houts : outs = t.output_files.exhaust := by
    have := delete_worker_files_snd
      (modifyTask q1 tid (fun t => { t with input_files := ins })) wkey
      ({ t with input_files := t.input_files.exhaust } : DsTask).output_files DS_CACHE
    rw [hd2] at this
    exact this
  have htq2 : assocLookup q2.tasks tid = some { t with input_files := t.input_files.exhaust } := by
    have := delete_worker_files_tasks
      (modifyTask q1 tid (fun t => { t with input_files := ins })) wkey
      ({ t with input_files := t.input_files.exhaust } : DsTask).output_files DS_CACHE
    rw [hd2] at this
    rw [this]
    simp only [lookupTask] at ht2
    exact ht2
  rw [assocLookup_modifyTask_self, htq2, houts]
  rfl

theorem ds_accumulate_ready_list (q : DsManager) (tid : Nat) :
    (ds_accumulate_task q tid).ready_list = q.ready_list := by
  unfold ds_accumulate_task
  cases ht : lookupTask q tid with
  | none => rfl
  | some t =>
    simp only [ht]
    rcases hcl : ds_category_lookup_or_create q t.category with ⟨q1, c⟩
    simp only [hcl]
    have hq1 : q1.ready_list = q.ready_list := by
      have h := category_lookup_ready q t.category
      rw [hcl] at h
      exact h
    by_cases h1 : t.result = DsResult.success <;>
      by_cases h2 : t.result = DsResult.resourceExhaustion <;>
        simp [h1, h2, hq1]

theorem ds_accumulate_tasks_exhaustion (q : DsManager) (tid : Nat) (t : DsTask)
    (ht : lookupTask q tid = some t) (hres : t.result = DsResult.resourceExhaustion) :
    assocLookup (ds_accumulate_task q tid).tasks tid =
      some { t with exhausted_attempts := t.exhausted_attempts + 1 } := by
  have h1 : (t.result = DsResult.success) = False :=
    eq_false (by rw [hres]; decide)
  have h2 : (t.result = DsResult.resourceExhaustion) = True := eq_true hres
  have ht' : assocLookup q.tasks tid = some t := by
    simpa [lookupTask] using ht
  unfold ds_accumulate_task
  simp only [ht, h1, h2, if_true, if_false]
  rcases hcl : ds_category_lookup_or_create q t.category with ⟨q1, c⟩
  simp only [hcl, h1, h2, if_true, if_false]
  have hq1 : q1.tasks = q.tasks := by
    have h := category_lookup_tasks q t.category
    rw [hcl] at h
    exact h
  simp [hq1, ht']

end DS

namespace DS

/-- C4: when a retrieved task's result is RESOURCE_EXHAUSTION and its category
advances the allocation label to something other than ERROR, the completion
tail of fetch_output_from_worker stores the advanced label and requeues the
task READY; since its result is RESOURCE_EXHAUSTION, push_task_to_ready_list
(ds_manager.c:3592-3593) prepends it to the head of the ready list, ahead of
every queued task regardless of priority. -/
theorem exhaustion_requeue_head (q : DsManager) (wkey : String) (tid : Nat) (now : Nat)
    (t : DsTask)
    (ht : lookupTask q tid = some t)
    (hres : t.result = DsResult.resourceExhaustion)
    (hst : t.state ≠ DsTaskState.ready)
    (hnl : category_next_label t.resource_request ≠ CategoryAllocation.error) :
    (fetch_output_completion q wkey tid now).ready_list = tid :: q.ready_list ∧
    ∃ t', lookupTask (fetch_output_completion q wkey tid now) tid = some t' ∧
      t'.state = DsTaskState.ready ∧
      t'.resource_request = category_next_label t.resource_request := by
  unfold fetch_output_completion
  simp only [ht]
  set qa := delete_uncacheable_files q wkey tid with hqa
  set qb := modifyTask qa tid (fun t => { t with time_when_done := now }) with hqb
  set qc := ds_accumulate_task qb tid with hqc
  set qd := reap_task_from_worker qc wkey tid DsTaskState.retrieved with hqd
  set qe := modifyWorker qd wkey (fun w =>
    { w with
      finished_tasks := w.finished_tasks - 1
      total_tasks_complete := w.total_tasks_complete + 1
      fast_abort_alarm := false }) with hqe
  have htA : lookupTask qa tid = some
      { t with
        input_files := t.input_files.exhaust
        output_files := t.output_files.exhaust } := by
    rw [hqa]
    exact delete_uncacheable_tasks_lookup q wkey tid t ht
  have hrA : qa.ready_list = q.ready_list := by
    rw [hqa]; exact delete_uncacheable_ready_list q wkey tid
  have htB : lookupTask qb tid = some
      { t with
        input_files := t.input_files.exhaust
        output_files := t.output_files.exhaust
        time_when_done := now } := by
    rw [hqb, lookupTask_modifyTask_self, htA]
    rfl
  have hrB : qb.ready_list = q.ready_list := by
    rw [hqb, modifyTask_ready_list, hrA]
  have htC : lookupTask qc tid = some
      { t with
        input_files := t.input_files.exhaust
        output_files := t.output_files.exhaust
        time_when_done := now
        exhausted_attempts := t.exhausted_attempts + 1 } := by
    rw [hqc]
    show assocLookup (ds_accumulate_task qb tid).tasks tid = _
    rw [ds_accumulate_tasks_exhaustion qb tid _ htB hres]
  have hrC : qc.ready_list = q.ready_list := by
    rw [hqc, ds_accumulate_ready_list, hrB]
  have htD : lookupTask qd tid = some
      { t with
        input_files := t.input_files.exhaust
        output_files := t.output_files.exhaust
        time_when_done := now
        exhausted_attempts := t.exhausted_attempts + 1
        worker := none
        state := DsTaskState.retrieved } := by
    rw [hqd]
    show assocLookup (reap_task_from_worker qc wkey tid DsTaskState.retrieved).tasks tid = _
    rw [reap_retrieved_tasks_lookup qc wkey tid _ htC]
  have hrD : qd.ready_list = q.ready_list := by
    rw [hqd, reap_retrieved_ready_list qc wkey tid _ htC hst, hrC]
  have htE : lookupTask qe tid = some
      { t with
        input_files := t.input_files.exhaust
        output_files := t.output_files.exhaust
        time_when_done := now
        exhausted_attempts := t.exhausted_attempts + 1
        worker := none
        state := DsTaskState.retrieved } := by
    rw [hqe]
    show assocLookup (modifyWorker qd wkey _).tasks tid = _
    rw [modifyWorker_tasks]
    exact htD
  have hrE : qe.ready_list = q.ready_list := by
    rw [hqe, modifyWorker_ready_list, hrD]
  simp only [htE, hres, eq_self_iff_true, if_true, eq_false hnl, if_false]
  rcases hcl : ds_category_lookup_or_create qe t.category with ⟨qf, c⟩
  simp only [hcl]
  have hqf : qf = (ds_category_lookup_or_create qe t.category).1 := by rw [hcl]
  have hqf_tasks : qf.tasks = qe.tasks := by rw [hqf, category_lookup_tasks]
  have hqf_ready : qf.ready_list = q.ready_list := by
    rw [hqf, category_lookup_ready, hrE]
  have htG : lookupTask (modifyTask qf tid
      (fun u => { u with resource_request := category_next_label t.resource_request })) tid
      = some
      { t with
        input_files := t.input_files.exhaust
        output_files := t.output_files.exhaust
        time_when_done := now
        exhausted_attempts := t.exhausted_attempts + 1
        worker := none
        state := DsTaskState.retrieved
        resource_request := category_next_label t.resource_request } := by
    rw [lookupTask_modifyTask_self]
    show (assocLookup qf.tasks tid).map _ = _
    rw [hqf_tasks]
    simp only [lookupTask] at htE
    rw [htE]
    rfl
  have hrG : (modifyTask qf tid
      (fun u => { u with resource_request := category_next_label t.resource_request })).ready_list
      = q.ready_list := by
    rw [modifyTask_ready_list, hqf_ready]
  constructor
  · rw [change_ready_ready_list_exhaustion _ tid _ htG hres (by simp), hrG]
  · refine ⟨ds_task_clean
      { t with
        input_files := t.input_files.exhaust
        output_files := t.output_files.exhaust
        time_when_done := now
        exhausted_attempts := t.exhausted_attempts + 1
        worker := none
        state := DsTaskState.ready
        resource_request := category_next_label t.resource_request } false, ?_, rfl, rfl⟩
    show assocLookup (change_task_state _ tid DsTaskState.ready).tasks tid = _
    rw [change_ready_tasks_lookup]
    simp only [lookupTask] at htG
    rw [htG]
    rfl

end DS

namespace DS

def c4task : DsTask :=
  { task0 with
    taskid := 3,
    category := "default",
    state := DsTaskState.waitingRetrieval,
    result := DsResult.resourceExhaustion,
    worker := some "X",
    resource_request := CategoryAllocation.first }

def c4q : DsManager :=
  { manager0 with
    worker_table := [{ worker0 with
      hashkey := "X",
      current_tasks := [3] }],
    tasks := [(3, c4task), (8, { task0 with
      taskid := 8,
      state := DsTaskState.ready,
      priority := 100 })],
    ready_list := [8] }

/-- C4 witness: a resource-exhausted task completes retrieval while a
priority-100 task is already queued; the exhausted task lands at the head of
the ready list, ahead of it, with its allocation label advanced. -/
theorem exhaustion_requeue_head_witness :
    (fetch_output_completion c4q "X" 3 77).ready_list = 3 :: c4q.ready_list ∧
    ∃ t', lookupTask (fetch_output_completion c4q "X" 3 77) 3 = some t' ∧
      t'.state = DsTaskState.ready ∧
      t'.resource_request = category_next_label c4task.resource_request :=
  exhaustion_requeue_head c4q "X" 3 77 c4task (by decide) (by decide) (by decide) (by decide)

end DS

namespace DS

/-! ### C5: stdout storage is capped at one gigabyte -/

@[simp] theorem modifyTask_soaked (q : DsManager) (tid : Nat) (f : DsTask → DsTask) :
    (modifyTask q tid f).soaked = q.soaked := rfl

@[simp] theorem modifyWorker_soaked (q : DsManager) (k : String)
    (f : DsWorkerInfo → DsWorkerInfo) : (modifyWorker q k f).soaked = q.soaked := rfl

@[simp] theorem modifyTask_monitor_mode (q : DsManager) (tid : Nat) (f : DsTask → DsTask) :
    (modifyTask q tid f).monitor_mode = q.monitor_mode := rfl

@[simp] theorem modifyWorker_monitor_mode (q : DsManager) (k : String)
    (f : DsWorkerInfo → DsWorkerInfo) : (modifyWorker q k f).monitor_mode = q.monitor_mode := rfl

@[simp] theorem push_task_to_ready_list_soaked (q : DsManager) (tid : Nat) :
    (push_task_to_ready_list q tid).soaked = q.soaked := by
  unfold push_task_to_ready_list
  cases h : lookupTask q tid with
  | none => rfl
  | some t =>
    by_cases h1 : t.result = DsResult.resourceExhaustion <;> simp [h1, modifyTask]

@[simp] theorem change_task_state_soaked (q : DsManager) (tid : Nat) (s : DsTaskState) :
    (change_task_state q tid s).soaked = q.soaked := by
  unfold change_task_state
  cases h : lookupTask q tid with
  | none => rfl
  | some t =>
    cases s <;>
      by_cases h1 : t.state = DsTaskState.ready <;>
        simp [h1, modifyTask]

end DS

namespace DS

/-- C5: for a `result` line addressed to a task of the sending worker (not
FORSAKEN, with the declared prefix of the stdout stream present): the manager
drains (soaks) exactly the bytes beyond the one-gigabyte cap, the task's
stored output is the capped buffer, and that buffer is byte-exact - when
OUTLEN fits the cap it is the received payload plus the terminating NUL with
no truncation marker, and when OUTLEN exceeds the cap it is one gigabyte plus
the NUL, ending in the truncation marker written over the tail
(ds_manager.c:1440-1493). -/
theorem stdout_capped_at_one_gigabyte (q : DsManager) (wkey : String) (m : ResultMsg)
    (payload : List Nat) (now : Nat) (w : DsWorkerInfo) (t : DsTask)
    (hw : lookupWorker q wkey = some w) (hmem : m.taskid ∈ w.current_tasks)
    (ht : lookupTask q m.taskid = some t) (hstat : m.task_status ≠ DsResult.forsaken)
    (hplen : min m.output_length MAX_TASK_STDOUT_STORAGE ≤ payload.length) :
    ((get_result q wkey m payload now).1.soaked
        = q.soaked + (m.output_length - min m.output_length MAX_TASK_STDOUT_STORAGE)) ∧
    ((assocLookup (get_result q wkey m payload now).1.tasks m.taskid).map (fun t => t.output)
        = some (some (get_result_stdout payload m.output_length))) ∧
    (m.output_length ≤ MAX_TASK_STDOUT_STORAGE → payload.length = m.output_length →
       get_result_stdout payload m.output_length = payload ++ [0]) ∧
    (MAX_TASK_STDOUT_STORAGE < m.output_length →
       (truncation_message_bytes (m.output_length - MAX_TASK_STDOUT_STORAGE)).length + 1
           ≤ MAX_TASK_STDOUT_STORAGE →
       get_result_stdout payload m.output_length
         = payload.take (MAX_TASK_STDOUT_STORAGE
             - (truncation_message_bytes (m.output_length - MAX_TASK_STDOUT_STORAGE)).length - 1)
           ++ truncation_message_bytes (m.output_length - MAX_TASK_STDOUT_STORAGE) ++ [0, 0] ∧
       (get_result_stdout payload m.output_length).length = MAX_TASK_STDOUT_STORAGE + 1) := by
  have ht' : assocLookup q.tasks m.taskid = some t := by
    simpa [lookupTask] using ht
  have hact : min payload.length (min m.output_length MAX_TASK_STDOUT_STORAGE)
      = min m.output_length MAX_TASK_STDOUT_STORAGE := min_eq_right hplen
  have hchg : ∀ q' : DsManager,
      assocLookup (change_task_state q' m.taskid DsTaskState.waitingRetrieval).tasks m.taskid
        = (assocLookup q'.tasks m.taskid).map
            (fun t => { t with state := DsTaskState.waitingRetrieval }) :=
    fun q' => change_mid_tasks_lookup q' m.taskid _ (by decide) (by decide) (by decide)
  have hrm : (RM_TIME_EXPIRE = RM_OVERFLOW) = False := by norm_num [RM_OVERFLOW, RM_TIME_EXPIRE]
  refine ⟨?_, ?_, ?_, ?_⟩
  · unfold get_result
    simp only [hw]
    rw [if_neg (not_not_intro hmem)]
    simp only [ht]
    rw [if_neg hstat]
    by_cases hbig : m.output_length > MAX_TASK_STDOUT_STORAGE <;>
      by_cases hmon : q.monitor_mode <;>
        by_cases hovf : m.exit_status = RM_OVERFLOW <;>
          by_cases htex : m.exit_status = RM_TIME_EXPIRE <;>
            simp [hbig, hmon, hovf, htex, hact, hrm]
  · unfold get_result
    simp only [hw]
    rw [if_neg (not_not_intro hmem)]
    simp only [ht]
    rw [if_neg hstat]
    by_cases hbig : m.output_length > MAX_TASK_STDOUT_STORAGE <;>
      by_cases hmon : q.monitor_mode <;>
        by_cases hovf : m.exit_status = RM_OVERFLOW <;>
          by_cases htex : m.exit_status = RM_TIME_EXPIRE <;>
            simp [hbig, hmon, hovf, htex, hact, hrm, hchg, ht', ds_task_update_result]
  · intro h1 h2
    unfold get_result_stdout
    rw [min_eq_left h1, ← h2]
    simp [List.take_length]
  · intro hbig hmsg
    have hr : min m.output_length MAX_TASK_STDOUT_STORAGE = MAX_TASK_STDOUT_STORAGE :=
      min_eq_right (le_of_lt hbig)
    have hpl : MAX_TASK_STDOUT_STORAGE ≤ payload.length := by rw [hr] at hplen; exact hplen
    have hA : (payload.take MAX_TASK_STDOUT_STORAGE).length = MAX_TASK_STDOUT_STORAGE := by
      rw [List.length_take, min_eq_left hpl]
    have hstored : get_result_stdout payload m.output_length
        = payload.take (MAX_TASK_STDOUT_STORAGE
            - (truncation_message_bytes (m.output_length - MAX_TASK_STDOUT_STORAGE)).length - 1)
          ++ truncation_message_bytes (m.output_length - MAX_TASK_STDOUT_STORAGE) ++ [0, 0] := by
      unfold get_result_stdout writeAt
      simp only [hr]
      rw [if_pos hbig]
      rw [List.take_append_of_le_length (by rw [hA]; omega),
          List.take_take]
      rw [min_eq_left (by omega :
        MAX_TASK_STDOUT_STORAGE
          - (truncation_message_bytes (m.output_length - MAX_TASK_STDOUT_STORAGE)).length - 1
          ≤ MAX_TASK_STDOUT_STORAGE)]
      rw [(by omega :
        MAX_TASK_STDOUT_STORAGE
            - (truncation_message_bytes (m.output_length - MAX_TASK_STDOUT_STORAGE)).length - 1
          + (truncation_message_bytes (m.output_length - MAX_TASK_STDOUT_STORAGE)).length
          = MAX_TASK_STDOUT_STORAGE - 1)]
      rw [List.drop_append_of_le_length (by rw [hA]; omega)]
      have hlen12 : (payload.take (MAX_TASK_STDOUT_STORAGE
          - (truncation_message_bytes (m.output_length - MAX_TASK_STDOUT_STORAGE)).length - 1)
          ++ truncation_message_bytes (m.output_length - MAX_TASK_STDOUT_STORAGE)).length
          = MAX_TASK_STDOUT_STORAGE - 1 := by
        rw [List.length_append, List.length_take, min_eq_left (by omega)]
        omega
      rw [List.set_append_right _ _ (le_of_eq hlen12), hlen12, Nat.sub_self]
      rcases List.length_eq_one.mp
          (show ((payload.take MAX_TASK_STDOUT_STORAGE).drop
              (MAX_TASK_STDOUT_STORAGE - 1)).length = 1 by
            rw [List.length_drop, hA]; omega) with ⟨a, ha⟩
      rw [ha]
      simp
    refine ⟨hstored, ?_⟩
    rw [hstored]
    simp only [List.length_append, List.length_take, List.length_cons, List.length_nil,
      min_eq_left (by omega :
        MAX_TASK_STDOUT_STORAGE
          - (truncation_message_bytes (m.output_length - MAX_TASK_STDOUT_STORAGE)).length - 1
          ≤ payload.length)]
    omega

end DS

namespace DS

def c5worker : DsWorkerInfo :=
  { worker0 with
    hashkey := "W",
    current_tasks := [4] }

def c5task : DsTask :=
  { task0 with
    taskid := 4,
    state := DsTaskState.running,
    worker := some "W" }

def c5q : DsManager :=
  { manager0 with
    worker_table := [c5worker],
    tasks := [(4, c5task)] }

def c5m : ResultMsg :=
  { task_status := DsResult.success, exit_status := 0, output_length := 5,
    execution_time := 3, taskid := 4 }

/-- C5 witness: a five-byte stdout fits the cap; nothing is soaked and the
stored buffer is the payload plus the terminating NUL, with no marker. -/
theorem stdout_capped_at_one_gigabyte_witness :
    (get_result c5q "W" c5m [65, 66, 67, 68, 69] 50).1.soaked
        = c5q.soaked + (c5m.output_length - min c5m.output_length MAX_TASK_STDOUT_STORAGE) ∧
    get_result_stdout [65, 66, 67, 68, 69] c5m.output_length = [65, 66, 67, 68, 69] ++ [0] := by
  have h := stdout_capped_at_one_gigabyte c5q "W" c5m [65, 66, 67, 68, 69] 50
    c5worker c5task (by decide) (by decide) (by decide) (by decide) (by decide)
  exact ⟨h.1, h.2.2.1 (by decide) (by decide)⟩

end DS
